import Mathlib

/-!
# Verification of the CARLA traffic-manager collision-avoidance and motion-planning core

Shallow embedding of `CollisionStage`-style collision avoidance
(`src/unnamed/part_000`) and `MotionPlan.h`, over exact rational arithmetic.
External mathematical primitives that the source delegates to libraries
(`sqrt` inside `Length`/`MakeUnitVector`/`Distance`, and `boost::geometry`
polygon-to-polygon minimal distance) are supplied through an explicit oracle
record, so every embedded function stays executable and can be evaluated at
concrete inputs by instantiating the oracle.

Fallible source operations (`.at` on maps and deques, `front()` on a
possibly-empty container) are modelled with `Option`: `none` is the
out-of-range exception / undefined-behaviour path.
-/

namespace CarlaTM

/-- Three-component vector over ℚ, embedding `cg::Vector3D` / `cg::Location`. -/
structure V3 where
  x : ℚ
  y : ℚ
  z : ℚ
deriving DecidableEq, Repr

/-- Component-wise vector addition (`operator+`). -/
def V3.add (a b : V3) : V3 := ⟨a.x + b.x, a.y + b.y, a.z + b.z⟩

/-- Component-wise vector subtraction (`operator-`). -/
def V3.sub (a b : V3) : V3 := ⟨a.x - b.x, a.y - b.y, a.z - b.z⟩

/-- Scalar multiplication (`operator*`). -/
def V3.scale (q : ℚ) (a : V3) : V3 := ⟨q * a.x, q * a.y, q * a.z⟩

/-- `cg::Math::Dot`. -/
def V3.dot (a b : V3) : ℚ := a.x * b.x + a.y * b.y + a.z * b.z

/-- `cg::Math::DistanceSquared`. -/
def V3.distSq (a b : V3) : ℚ := (a.sub b).dot (a.sub b)

/-- Rotation is abstracted by the forward unit vector it exposes
(`rotation.GetForwardVector()`), as the data model prescribes. -/
structure Rotation where
  fwd : V3
deriving DecidableEq, Repr

/-- A transform: location plus rotation (`cg::Transform`). -/
structure Transform where
  location : V3
  rotation : Rotation
deriving DecidableEq, Repr

/-- Actor type tag (`ActorType`). -/
inductive ActorType where
  | Vehicle
  | Pedestrian
  | Other
deriving DecidableEq, Repr

/-- `KinematicState` of an actor. -/
structure KinematicState where
  location : V3
  rotation : Rotation
  velocity : V3
  physics_enabled : Bool
deriving DecidableEq, Repr

/-- `StaticAttributes` of an actor. -/
structure StaticAttributes where
  actor_type : ActorType
  half_length : ℚ
  half_width : ℚ
  speed_limit : ℚ
deriving DecidableEq, Repr

/-- Traffic-light colour states (`carla::rpc::TrafficLightState`). -/
inductive TLS where
  | Red
  | Yellow
  | Green
  | Off
  | Unknown
deriving DecidableEq, Repr

/-- `TrafficLightState` snapshot for an actor. -/
structure TrafficLightState where
  tl_state : TLS
  at_traffic_light : Bool
deriving DecidableEq, Repr

/-- A waypoint of the route buffer (`SimpleWaypoint`): exposes a transform
and a junction flag. -/
structure Waypoint where
  transform : Transform
  junction : Bool
deriving DecidableEq, Repr

/-- `SimpleWaypoint::GetLocation`. -/
def Waypoint.loc (w : Waypoint) : V3 := w.transform.location

/-- `SimpleWaypoint::GetForwardVector`. -/
def Waypoint.fwdV (w : Waypoint) : V3 := w.transform.rotation.fwd

/-- `SimpleWaypoint::DistanceSquared`. -/
def Waypoint.distSqW (a b : Waypoint) : ℚ := V3.distSq a.loc b.loc

/-- Modelled from the spec: `DataStructures.h` is not in `src`; field order
`{lead_vehicle_id, initial_lock_distance, distance_to_lead_vehicle}` follows
the spec's data-model table (§3), which fixes the meaning of the brace
initializers `{other, inter_bbox, inter_bbox}` in the source. -/
structure CollisionLock where
  lead_vehicle_id : Nat
  initial_lock_distance : ℚ
  distance_to_lead_vehicle : ℚ
deriving DecidableEq, Repr

/-- Margin value: the source uses IEEE `+∞` as the "no constraint" margin. -/
inductive Marg where
  | inf
  | val (q : ℚ)
deriving DecidableEq, Repr

/-- `margin > q` with `+∞ > q` always true. -/
def Marg.gtQ (m : Marg) (q : ℚ) : Bool :=
  match m with
  | .inf => true
  | .val v => decide (v > q)

/-- `margin < q` with `+∞ < q` always false. -/
def Marg.ltQ (m : Marg) (q : ℚ) : Bool :=
  match m with
  | .inf => false
  | .val v => decide (v < q)

/-- `CollisionHazardData` written per ego and per tick. -/
structure CollisionHazardData where
  hazard_actor_id : Nat
  hazard : Bool
  available_distance_margin : Marg
deriving DecidableEq, Repr

/-- `GeometryComparison`: the four polygon distances. -/
structure GeometryComparison where
  reference_vehicle_to_other_geodesic : ℚ
  other_vehicle_to_reference_geodesic : ℚ
  inter_geodesic_distance : ℚ
  inter_bbox_distance : ℚ
deriving DecidableEq, Repr

/-- PID `StateEntry`; field order follows the spec's data-model table. -/
structure StateEntry where
  deviation : ℚ
  deviation_integral : ℚ
  time : ℚ
  velocity : ℚ
  velocity_integral : ℚ
deriving DecidableEq, Repr

/-- `ActuationSignal`. -/
structure ActuationSignal where
  throttle : ℚ
  brake : ℚ
  steer : ℚ
deriving DecidableEq, Repr

/-- Output command: either a vehicle control or a teleport transform. -/
inductive Command where
  | applyVehicleControl (id : Nat) (sig : ActuationSignal)
  | applyTransform (id : Nat) (t : Transform)
deriving DecidableEq, Repr

/-- Maps keyed by actor id are embedded as partial functions. -/
def NMap (α : Type) : Type := Nat → Option α

/-- Pointwise map update (`insert` / assignment through `at`). -/
def NMap.upd {α : Type} (m : NMap α) (k : Nat) (v : α) : NMap α :=
  fun k' => if k' = k then some v else m k'

/-- Map erasure (`erase`). -/
def NMap.del {α : Type} (m : NMap α) (k : Nat) : NMap α :=
  fun k' => if k' = k then none else m k'

/-- The empty map. -/
def NMap.empty {α : Type} : NMap α := fun _ => none

/-- A 2D ring point (`Point2D`). -/
def Point2D : Type := ℚ × ℚ

/-- Oracle for the external mathematical primitives: `sqrt` (used by
`Length`, `Distance`, `MakeUnitVector`) and `boost::geometry` polygon
distance.  The embedded control flow never depends on anything else about
these library calls. -/
structure GeomOracle where
  sqrtq : ℚ → ℚ
  polyDist : List Point2D → List Point2D → ℚ

/-- `Vector3D::Length` via the sqrt oracle. -/
def vecLen (o : GeomOracle) (v : V3) : ℚ := o.sqrtq (v.dot v)

/-- `Vector3D::MakeUnitVector`: divide by the length. -/
def makeUnitVector (o : GeomOracle) (v : V3) : V3 :=
  V3.scale (1 / vecLen o v) v

/-- Fuel-based integer square root (largest `k ≤ fuel` with `k² ≤ n`),
structurally recursive so concrete instances evaluate. -/
def natSqrtAux (n : Nat) : Nat → Nat → Nat
  | 0, k => k
  | fuel + 1, k => if (k + 1) * (k + 1) ≤ n then natSqrtAux n fuel (k + 1) else k

/-- Integer square root by bounded search. -/
def natSqrt (n : Nat) : Nat := natSqrtAux n n 0

/-- Exact square root on perfect-square rationals; a concrete legitimate
instantiation of the sqrt oracle used for evaluating witnesses. -/
def ratSqrt (q : ℚ) : ℚ := (natSqrt q.num.toNat : ℚ) / (natSqrt q.den : ℚ)

/-! ## Constants

`Constants.h` is not in `src`.  All constants below are modelled from the
spec's constants table (§6): the spec fixes their roles but not their
values, and no claim depends on a particular value, so representative
rational values are chosen. -/

/-- Modelled from the spec: filter radius for candidate vehicles. -/
def MAX_COLLISION_RADIUS : ℚ := 100

/-- Modelled from the spec: max `|Δz|` to consider candidates. -/
def VERTICAL_OVERLAP_THRESHOLD : ℚ := 4

/-- Modelled from the spec: linear speed→corridor-length rate. -/
def BOUNDARY_EXTENSION_RATE : ℚ := 13/20

/-- Modelled from the spec: minimum corridor extension. -/
def BOUNDARY_EXTENSION_MINIMUM : ℚ := 2

/-- Modelled from the spec: lock padding added to the lead distance. -/
def LOCKING_DISTANCE_PADDING : ℚ := 4

/-- Modelled from the spec: hysteresis growth limit. -/
def MAX_LOCKING_EXTENSION : ℚ := 10

/-- Modelled from the spec: rib-emission heading threshold. -/
def COS_10_DEGREES : ℚ := 9848/10000

/-- Modelled from the spec: pedestrian forecast horizon. -/
def WALKER_TIME_EXTENSION : ℚ := 3/2

/-- Modelled from the spec: bbox diagonal helper. -/
def SQUARE_ROOT_OF_TWO : ℚ := 1414/1000

/-- Modelled from the spec: look-ahead distance for junction detection. -/
def JUNCTION_LOOK_AHEAD : ℚ := 5

/-- Modelled from the spec: selector threshold for the PID parameter set. -/
def HIGHWAY_SPEED : ℚ := 50/3

/-- Modelled from the spec: target waypoint time horizon. -/
def TARGET_WAYPOINT_TIME_HORIZON : ℚ := 1

/-- Modelled from the spec: minimum target waypoint distance. -/
def TARGET_WAYPOINT_HORIZON_LENGTH : ℚ := 5

/-- Modelled from the spec: following-law rate. -/
def FOLLOW_DISTANCE_RATE : ℚ := 1/20

/-- Modelled from the spec: minimum follow lead distance. -/
def MIN_FOLLOW_LEAD_DISTANCE : ℚ := 5

/-- Modelled from the spec: relative approach speed. -/
def RELATIVE_APPROACH_SPEED : ℚ := 5/2

/-- Modelled from the spec: critical braking margin. -/
def CRITICAL_BRAKING_MARGIN : ℚ := 1/2

/-- Modelled from the spec: closing-speed threshold. -/
def EPSILON_RELATIVE_SPEED : ℚ := 1/1000

/-- Modelled from the spec: teleport cadence in hybrid mode. -/
def HYBRID_MODE_DT : ℚ := 1/20

/-- `std::numeric_limits<float>::epsilon()`, i.e. `2⁻²³`. -/
def EPSILON_F : ℚ := 1/8388608

/-! ## Boundary builder (`src/unnamed/part_000`, lines 210-361) -/

/-- `GetBoundingBoxExtention` (source lines 211-235): speed-dependent
extension, overridden by a valid collision lock. -/
def GetBoundingBoxExtention (actor_id : Nat) (kinematic_state : KinematicState)
    (collision_lock_map : NMap CollisionLock) : ℚ :=
  let velocity := V3.dot kinematic_state.velocity kinematic_state.rotation.fwd
  let bbox_extension := BOUNDARY_EXTENSION_RATE * velocity + BOUNDARY_EXTENSION_MINIMUM
  match collision_lock_map actor_id with
  | some lock =>
      let lock_boundary_length := lock.distance_to_lead_vehicle + LOCKING_DISTANCE_PADDING
      if lock_boundary_length - lock.initial_lock_distance < MAX_LOCKING_EXTENSION then
        lock_boundary_length
      else
        bbox_extension
  | none => bbox_extension

/-- `GetBoundary` (source lines 237-265): the four bbox corners, clockwise. -/
def GetBoundary (o : GeomOracle) (kinematic_state : KinematicState)
    (attributes : StaticAttributes) : List V3 :=
  let heading_vector := kinematic_state.rotation.fwd
  let forward_extension : ℚ :=
    if attributes.actor_type = ActorType.Pedestrian then
      vecLen o kinematic_state.velocity * WALKER_TIME_EXTENSION
    else 0
  let bbox_x := attributes.half_length
  let bbox_y := attributes.half_width
  let x_boundary_vector := V3.scale (bbox_x + forward_extension) heading_vector
  let perpendicular_vector := makeUnitVector o ⟨-heading_vector.y, heading_vector.x, 0⟩
  let y_boundary_vector := V3.scale (bbox_y + forward_extension) perpendicular_vector
  let location := kinematic_state.location
  [ location.add (x_boundary_vector.sub y_boundary_vector),
    location.add (((V3.scale (-1) x_boundary_vector)).sub y_boundary_vector),
    location.add (((V3.scale (-1) x_boundary_vector)).add y_boundary_vector),
    location.add (x_boundary_vector.add y_boundary_vector) ]

/-- Walk helper for the spec-modelled `GetTargetWaypoint`: advance until the
cumulative along-route distance consumes the request, returning the waypoint
together with its buffer index. -/
def gtwWalk (o : GeomOracle) : Waypoint → List Waypoint → ℚ → Nat → Waypoint × Nat
  | current, [], _, i => (current, i)
  | current, next :: rest, remaining, i =>
      if remaining ≤ 0 then (current, i)
      else gtwWalk o next rest (remaining - o.sqrtq (V3.distSq current.loc next.loc)) (i + 1)

/-- Modelled from the spec: `LocalizationUtils` (`GetTargetWaypoint`) is not
in `src`.  Per §4.1/§4.6 it selects "the buffer entry whose along-route
distance from buffer[0] equals" the requested distance; we return the first
entry whose cumulative along-route distance reaches the target (else the
last entry), with its index.  `none` models the container misuse on an
empty buffer. -/
def GetTargetWaypoint (o : GeomOracle) (buffer : List Waypoint) (d : ℚ) :
    Option (Waypoint × Nat) :=
  match buffer with
  | [] => none
  | w :: ws => some (gtwWalk o w ws d 0)

/-- Boundary-walk loop of `GetGeodesicBoundary` (source lines 302-329),
with explicit fuel so that evaluation is structural.  Returns the pair
(left_boundary, right_boundary) of emitted rib points (the source's
accumulators start empty, so accumulating and concatenating agree). -/
def geoWalk (o : GeomOracle) (buffer : List Waypoint) (boundary_start : Waypoint)
    (ext2 width : ℚ) :
    Nat → Nat → Waypoint → Option Waypoint → List V3 × List V3
  | 0, _, _, _ => ([], [])
  | fuel + 1, j, current, boundary_end =>
      if hj : j < buffer.length then
        let reached : Bool :=
          decide (Waypoint.distSqW boundary_start current > ext2) ||
          decide (j = buffer.length - 1)
        let emit : Bool :=
          match boundary_end with
          | none => true
          | some be => decide (V3.dot be.fwdV current.fwdV < COS_10_DEGREES) || reached
        let heading_vector := current.fwdV
        let location := current.loc
        let perpendicular_vector := makeUnitVector o ⟨-heading_vector.y, heading_vector.x, 0⟩
        let scaled_perpendicular := V3.scale width perpendicular_vector
        let ribL := if emit then [location.add scaled_perpendicular] else []
        let ribR := if emit then [location.add (V3.scale (-1) scaled_perpendicular)] else []
        let boundary_end' := if emit then some current else boundary_end
        if reached then (ribL, ribR)
        else
          let rest := geoWalk o buffer boundary_start ext2 width fuel (j + 1)
            (buffer.get ⟨j, hj⟩) boundary_end'
          (ribL ++ rest.1, ribR ++ rest.2)
      else ([], [])

/-- `GetGeodesicBoundary` (source lines 267-350), threading the per-tick
geodesic boundary memo map. -/
def GetGeodesicBoundary (o : GeomOracle) (actor_id : Nat)
    (geodesic_boundary_map : NMap (List V3)) (kinematic_state : KinematicState)
    (attributes : StaticAttributes) (waypoint_buffer : List Waypoint)
    (specific_lead_distance : ℚ) (collision_lock_map : NMap CollisionLock) :
    Option (List V3 × NMap (List V3)) :=
  match geodesic_boundary_map actor_id with
  | some gb => some (gb, geodesic_boundary_map)
  | none =>
      let bbox := GetBoundary o kinematic_state attributes
      if attributes.actor_type = ActorType.Vehicle then
        match GetTargetWaypoint o waypoint_buffer attributes.half_length with
        | none => none
        | some (boundary_start, boundary_start_index) =>
            let bbox_extension :=
              max specific_lead_distance
                (GetBoundingBoxExtention actor_id kinematic_state collision_lock_map)
            let bbox_extension_square := bbox_extension * bbox_extension
            let width := attributes.half_width
            let (left_boundary, right_boundary) :=
              geoWalk o waypoint_buffer boundary_start bbox_extension_square width
                waypoint_buffer.length boundary_start_index boundary_start none
            let geodesic_boundary := right_boundary.reverse ++ bbox ++ left_boundary
            some (geodesic_boundary, geodesic_boundary_map.upd actor_id geodesic_boundary)
      else
        some (bbox, geodesic_boundary_map.upd actor_id bbox)

/-- `GetPolygon` (source lines 352-361): the closed 2D ring; `none` models
the undefined `front()` access on an empty boundary. -/
def GetPolygon (boundary : List V3) : Option (List Point2D) :=
  match boundary with
  | [] => none
  | first :: _ =>
      some ((boundary.map fun l => ((l.x, l.y) : Point2D)) ++ [(first.x, first.y)])

/-! ## Geometry cache (`src/unnamed/part_000`, lines 363-427) -/

/-- Cache key: the source concatenates two decimal ids with `|`, which is in
bijection with the ordered pair, so the key is embedded as `Nat × Nat`. -/
def GeomCache : Type := Nat × Nat → Option GeometryComparison

/-- Update of the geometry cache. -/
def GeomCache.upd (c : GeomCache) (k : Nat × Nat) (v : GeometryComparison) : GeomCache :=
  fun k' => if k' = k then some v else c k'

/-- The key construction of source lines 378-380, kept faithful to the
source: when `reference_vehicle_id < other_actor_id` fails, the source
concatenates `other_actor_id` with itself. -/
def geometryKey (reference_vehicle_id other_actor_id : Nat) : Nat × Nat :=
  if reference_vehicle_id < other_actor_id
  then (reference_vehicle_id, other_actor_id)
  else (other_actor_id, other_actor_id)

/-- `GetGeometryBetweenActors` (source lines 363-427): on a cache hit the
two geodesic fields are swapped; on a miss the four polygon distances are
computed and stored.  Returns the comparison plus the updated caches. -/
def GetGeometryBetweenActors (o : GeomOracle) (geometry_cache : GeomCache)
    (geodesic_boundary_map : NMap (List V3))
    (reference_vehicle_id other_actor_id : Nat)
    (reference_vehicle_state other_vehicle_state : KinematicState)
    (reference_vehicle_attributes other_vehicle_attributes : StaticAttributes)
    (reference_vehicle_buffer other_vehicle_buffer : List Waypoint)
    (collision_lock_map : NMap CollisionLock)
    (reference_lead_distance other_lead_distance : ℚ) :
    Option (GeometryComparison × GeomCache × NMap (List V3)) :=
  let actor_id_key := geometryKey reference_vehicle_id other_actor_id
  match geometry_cache actor_id_key with
  | some mCache =>
      some (⟨mCache.other_vehicle_to_reference_geodesic,
             mCache.reference_vehicle_to_other_geodesic,
             mCache.inter_geodesic_distance,
             mCache.inter_bbox_distance⟩, geometry_cache, geodesic_boundary_map)
  | none => do
      let reference_polygon ←
        GetPolygon (GetBoundary o reference_vehicle_state reference_vehicle_attributes)
      let other_polygon ←
        GetPolygon (GetBoundary o other_vehicle_state other_vehicle_attributes)
      let (reference_geodesic_boundary, gbm1) ←
        GetGeodesicBoundary o reference_vehicle_id geodesic_boundary_map
          reference_vehicle_state reference_vehicle_attributes reference_vehicle_buffer
          reference_lead_distance collision_lock_map
      let reference_geodesic_polygon ← GetPolygon reference_geodesic_boundary
      let (other_geodesic_boundary, gbm2) ←
        GetGeodesicBoundary o other_actor_id gbm1
          other_vehicle_state other_vehicle_attributes other_vehicle_buffer
          other_lead_distance collision_lock_map
      let other_geodesic_polygon ← GetPolygon other_geodesic_boundary
      let mCache : GeometryComparison :=
        ⟨o.polyDist reference_polygon other_geodesic_polygon,
         o.polyDist other_polygon reference_geodesic_polygon,
         o.polyDist reference_geodesic_polygon other_geodesic_polygon,
         o.polyDist reference_polygon other_polygon⟩
      some (mCache, geometry_cache.upd actor_id_key mCache, gbm2)

/-! ## Collision negotiator (`src/unnamed/part_000`, lines 429-575) -/

/-- Unit vector from the reference location towards the other location
(source lines 456-460): normalized only when the magnitude clears the
`2ε` guard. -/
def refToOtherUnit (o : GeomOracle) (reference_location other_location : V3) : V3 :=
  let reference_to_other := other_location.sub reference_location
  let reference_to_other_magnitude := vecLen o reference_to_other
  if reference_to_other_magnitude > 2 * EPSILON_F then
    V3.scale (1 / reference_to_other_magnitude) reference_to_other
  else reference_to_other

/-- `ego_angular_priority` exactly as the source computes it (lines 454,
462-469 and 522-523): **both** forward vectors are taken from
`reference_vehicle_state.rotation`, because line 463 reads the reference
state. -/
def egoAngularPriority (o : GeomOracle)
    (reference_vehicle_state other_vehicle_state : KinematicState) : Bool :=
  let reference_location := reference_vehicle_state.location
  let other_location := other_vehicle_state.location
  let reference_heading := reference_vehicle_state.rotation.fwd
  let other_heading := reference_vehicle_state.rotation.fwd
  let reference_to_other := refToOtherUnit o reference_location other_location
  let other_to_reference := refToOtherUnit o other_location reference_location
  decide (V3.dot reference_heading reference_to_other <
          V3.dot other_heading other_to_reference)

/-- Modelled from the spec (§4.3): the intended `ego_angular_priority`, in
which the second dot product uses the *other* vehicle's forward vector.
Kept only for comparison with the source's computation. -/
def egoAngularPrioritySpec (o : GeomOracle)
    (reference_vehicle_state other_vehicle_state : KinematicState) : Bool :=
  let reference_location := reference_vehicle_state.location
  let other_location := other_vehicle_state.location
  let reference_to_other := refToOtherUnit o reference_location other_location
  let other_to_reference := refToOtherUnit o other_location reference_location
  decide (V3.dot reference_vehicle_state.rotation.fwd reference_to_other <
          V3.dot other_vehicle_state.rotation.fwd other_to_reference)

/-- The negotiation gate (source lines 497-499), given the buffer-front and
look-ahead waypoints. -/
def negotiateGate (reference_vehicle_state other_vehicle_state : KinematicState)
    (reference_vehicle_attributes other_vehicle_attributes : StaticAttributes)
    (reference_tl_state : TrafficLightState)
    (reference_vehicle_id other_actor_id : Nat)
    (collision_locks : NMap CollisionLock)
    (o : GeomOracle) (closest_point look_ahead_point : Waypoint) : Bool :=
  let reference_location := reference_vehicle_state.location
  let other_location := other_vehicle_state.location
  let reference_heading := reference_vehicle_state.rotation.fwd
  let reference_to_other := refToOtherUnit o reference_location other_location
  let reference_vehicle_length := reference_vehicle_attributes.half_length * SQUARE_ROOT_OF_TWO
  let other_vehicle_length := other_vehicle_attributes.half_length * SQUARE_ROOT_OF_TWO
  let inter_vehicle_distance := V3.distSq reference_location other_location
  let ego_bounding_box_extension :=
    GetBoundingBoxExtention reference_vehicle_id reference_vehicle_state collision_locks
  let other_bounding_box_extension :=
    GetBoundingBoxExtention other_actor_id other_vehicle_state collision_locks
  let inter_vehicle_length := reference_vehicle_length + other_vehicle_length
  let ego_detection_range :=
    (ego_bounding_box_extension + inter_vehicle_length) *
    (ego_bounding_box_extension + inter_vehicle_length)
  let cross_detection_range :=
    (ego_bounding_box_extension + inter_vehicle_length + other_bounding_box_extension) *
    (ego_bounding_box_extension + inter_vehicle_length + other_bounding_box_extension)
  let other_vehicle_in_ego_range := decide (inter_vehicle_distance < ego_detection_range)
  let other_vehicles_in_cross_detection_range :=
    decide (inter_vehicle_distance < cross_detection_range)
  let other_vehicle_in_front := decide (V3.dot reference_heading reference_to_other > 0)
  let ego_inside_junction := closest_point.junction
  let ego_at_traffic_light := reference_tl_state.at_traffic_light
  let ego_stopped_by_light := decide (reference_tl_state.tl_state ≠ TLS.Green)
  let ego_at_junction_entrance := !closest_point.junction && look_ahead_point.junction
  !(ego_at_junction_entrance && ego_at_traffic_light && ego_stopped_by_light) &&
    ((ego_inside_junction && other_vehicles_in_cross_detection_range) ||
     (!ego_inside_junction && other_vehicle_in_front && other_vehicle_in_ego_range))

/-- The hazard rule of source lines 516-529, as a function of the geometry
comparison and the (source-computed) angular priority. -/
def hazardRule (geometry_comparison : GeometryComparison)
    (ego_angular_priority : Bool) : Bool :=
  let geodesic_path_bbox_touching :=
    decide (geometry_comparison.inter_geodesic_distance < 1/10)
  let vehicle_bbox_touching := decide (geometry_comparison.inter_bbox_distance < 1/10)
  let ego_path_clear :=
    decide (geometry_comparison.other_vehicle_to_reference_geodesic > 1/10)
  let other_path_clear :=
    decide (geometry_comparison.reference_vehicle_to_other_geodesic > 1/10)
  let ego_path_priority :=
    decide (geometry_comparison.reference_vehicle_to_other_geodesic <
            geometry_comparison.other_vehicle_to_reference_geodesic)
  geodesic_path_bbox_touching &&
    ((!vehicle_bbox_touching &&
       (!ego_path_clear ||
        (ego_path_clear && other_path_clear && !ego_angular_priority && !ego_path_priority))) ||
     (vehicle_bbox_touching && !ego_angular_priority && !ego_path_priority))

/-- The lock update on the hazard path (source lines 542-565). -/
def lockUpdate (collision_locks : NMap CollisionLock)
    (reference_vehicle_id other_actor_id : Nat)
    (geometry_comparison : GeometryComparison) : NMap CollisionLock :=
  match collision_locks reference_vehicle_id with
  | some lock =>
      if other_actor_id = lock.lead_vehicle_id then
        let d :=
          if geometry_comparison.other_vehicle_to_reference_geodesic < 1/10 then
            geometry_comparison.inter_bbox_distance
          else
            geometry_comparison.reference_vehicle_to_other_geodesic
        collision_locks.upd reference_vehicle_id
          ⟨lock.lead_vehicle_id, lock.initial_lock_distance, d⟩
      else
        collision_locks.upd reference_vehicle_id
          ⟨other_actor_id, geometry_comparison.inter_bbox_distance,
           geometry_comparison.inter_bbox_distance⟩
  | none =>
      collision_locks.upd reference_vehicle_id
        ⟨other_actor_id, geometry_comparison.inter_bbox_distance,
         geometry_comparison.inter_bbox_distance⟩

/-- Result of one negotiation call: the returned pair plus the states the
call mutates. -/
structure NegOut where
  hazard : Bool
  available_distance_margin : Marg
  collision_locks : NMap CollisionLock
  geometry_cache : GeomCache
  geodesic_boundary_map : NMap (List V3)

/-- Body of `NegotiateCollision` once the buffer-front and look-ahead
waypoints have been fetched (source lines 444-574). -/
def negotiateCore (o : GeomOracle) (reference_vehicle_id other_actor_id : Nat)
    (geometry_cache : GeomCache) (geodesic_boundary_map : NMap (List V3))
    (collision_locks : NMap CollisionLock)
    (reference_vehicle_state other_vehicle_state : KinematicState)
    (reference_vehicle_attributes other_vehicle_attributes : StaticAttributes)
    (reference_tl_state : TrafficLightState)
    (reference_vehicle_buffer other_vehicle_buffer : List Waypoint)
    (reference_lead_distance other_lead_distance : ℚ)
    (closest_point look_ahead_point : Waypoint) : Option NegOut :=
  if negotiateGate reference_vehicle_state other_vehicle_state
       reference_vehicle_attributes other_vehicle_attributes reference_tl_state
       reference_vehicle_id other_actor_id collision_locks o
       closest_point look_ahead_point then
    match GetGeometryBetweenActors o geometry_cache geodesic_boundary_map
        reference_vehicle_id other_actor_id
        reference_vehicle_state other_vehicle_state
        reference_vehicle_attributes other_vehicle_attributes
        reference_vehicle_buffer other_vehicle_buffer
        collision_locks reference_lead_distance other_lead_distance with
    | none => none
    | some (geometry_comparison, cache', gbm') =>
        if hazardRule geometry_comparison
             (egoAngularPriority o reference_vehicle_state other_vehicle_state) then
          let specific_distance_margin :=
            max reference_lead_distance BOUNDARY_EXTENSION_MINIMUM
          let available_distance_margin :=
            Marg.val (max (geometry_comparison.reference_vehicle_to_other_geodesic -
                           specific_distance_margin) 0)
          some ⟨true, available_distance_margin,
                lockUpdate collision_locks reference_vehicle_id other_actor_id
                  geometry_comparison,
                cache', gbm'⟩
        else
          some ⟨false, Marg.inf, collision_locks.del reference_vehicle_id, cache', gbm'⟩
  else
    some ⟨false, Marg.inf, collision_locks.del reference_vehicle_id,
          geometry_cache, geodesic_boundary_map⟩

/-- `NegotiateCollision` (source lines 429-575).  `none` models the
container exceptions on `front()` of an empty buffer or an out-of-range
look-ahead index; note that when no hazard is found the source erases any
lock held by the reference vehicle, which `NMap.del` captures whether or
not an entry is present. -/
def NegotiateCollision (o : GeomOracle) (reference_vehicle_id other_actor_id : Nat)
    (geometry_cache : GeomCache) (geodesic_boundary_map : NMap (List V3))
    (collision_locks : NMap CollisionLock)
    (reference_vehicle_state other_vehicle_state : KinematicState)
    (reference_vehicle_attributes other_vehicle_attributes : StaticAttributes)
    (reference_tl_state : TrafficLightState)
    (reference_vehicle_buffer other_vehicle_buffer : List Waypoint)
    (reference_junction_look_ahead_index : Nat)
    (reference_lead_distance other_lead_distance : ℚ) : Option NegOut :=
  match reference_vehicle_buffer.head?,
        reference_vehicle_buffer.get? reference_junction_look_ahead_index with
  | some closest_point, some look_ahead_point =>
      negotiateCore o reference_vehicle_id other_actor_id geometry_cache
        geodesic_boundary_map collision_locks
        reference_vehicle_state other_vehicle_state
        reference_vehicle_attributes other_vehicle_attributes reference_tl_state
        reference_vehicle_buffer other_vehicle_buffer
        reference_lead_distance other_lead_distance closest_point look_ahead_point
  | _, _ => none

/-! ## Collision avoidance driver (`src/unnamed/part_000`, lines 101-208) -/

/-- External configuration object (`Parameters`) plus the per-vehicle
target-velocity resolver used by motion planning. -/
structure SimParameters where
  distance_to_leading : Nat → ℚ
  collision_detection : Nat → Nat → Bool
  percentage_ignore_vehicles : Nat → ℚ
  percentage_ignore_walkers : Nat → ℚ
  synchronous_mode : Bool
  target_velocity : Nat → ℚ → ℚ

/-- Modelled from the spec: `VehicleStateAndAttributeQuery` (`GetLocation`)
is not in `src`; it fetches the location of an actor from the kinematic
state map, failing on a missing entry. -/
def GetLocation (state_map : NMap KinematicState) (actor_id : Nat) : Option V3 :=
  (state_map actor_id).map (·.location)

/-- Modelled from the spec: `VehicleStateAndAttributeQuery` (`GetType`) is
not in `src`; it fetches the actor type from the attribute map, failing on
a missing entry. -/
def GetType (attribute_map : NMap StaticAttributes) (actor_id : Nat) : Option ActorType :=
  (attribute_map actor_id).map (·.actor_type)

/-- Candidate filter of source lines 134-144: keep overlapping actors that
are distinct from the ego, within the collision radius and within the
vertical overlap band. -/
def collectCandidates (state_map : NMap KinematicState) (ego_actor_id : Nat)
    (ego_location : V3) : List Nat → Option (List Nat)
  | [] => some []
  | overlapping_actor_id :: rest => do
      let overlapping_actor_location ← GetLocation state_map overlapping_actor_id
      let tail ← collectCandidates state_map ego_actor_id ego_location rest
      if overlapping_actor_id ≠ ego_actor_id ∧
         V3.distSq overlapping_actor_location ego_location <
           MAX_COLLISION_RADIUS * MAX_COLLISION_RADIUS ∧
         |ego_location.z - overlapping_actor_location.z| < VERTICAL_OVERLAP_THRESHOLD then
        some (overlapping_actor_id :: tail)
      else
        some tail

/-- Location lookup with a default; used only inside the sort comparator,
where the filter has already established that every candidate is present in
the state map. -/
def locationD (state_map : NMap KinematicState) (actor_id : Nat) : V3 :=
  ((state_map actor_id).map (·.location)).getD ⟨0, 0, 0⟩

/-- Insertion step of the distance sort. -/
def insertByDistance (state_map : NMap KinematicState) (ego_location : V3)
    (a_id : Nat) : List Nat → List Nat
  | [] => [a_id]
  | c :: rest =>
      if V3.distSq ego_location (locationD state_map a_id) <
         V3.distSq ego_location (locationD state_map c) then
        a_id :: c :: rest
      else
        c :: insertByDistance state_map ego_location a_id rest

/-- The `std::sort` of source lines 147-153, modelled as insertion sort on
the same strict comparator (any order consistent with the comparator is a
valid refinement of `std::sort`). -/
def sortByDistance (state_map : NMap KinematicState) (ego_location : V3) :
    List Nat → List Nat
  | [] => []
  | c :: rest => insertByDistance state_map ego_location c
      (sortByDistance state_map ego_location rest)

/-- The candidate loop of source lines 158-201, threading the lock map, the
per-tick caches and the position in the random stream.  Returns
`(collision_hazard, available_distance_margin, obstacle_id, locks, rand_position)`. -/
def caLoop (o : GeomOracle) (p : SimParameters) (randf : Nat → Nat)
    (state_map : NMap KinematicState) (attribute_map : NMap StaticAttributes)
    (tl_state_map : NMap TrafficLightState) (buffer_map : NMap (List Waypoint))
    (ego_actor_id : Nat) (ego_kinematic_state : KinematicState)
    (ego_attributes : StaticAttributes) (look_ahead_index : Nat)
    (reference_lead_distance : ℚ) :
    List Nat → NMap CollisionLock → GeomCache → NMap (List V3) → Nat →
    Option (Bool × Marg × Nat × NMap CollisionLock × Nat)
  | [], collision_locks, _, _, k => some (false, Marg.inf, 0, collision_locks, k)
  | other_actor_id :: rest, collision_locks, geometry_cache, geodesic_boundary_map, k => do
      let other_actor_type ← GetType attribute_map other_actor_id
      let other_kinematic_state ← state_map other_actor_id
      let other_attributes ← attribute_map other_actor_id
      if p.collision_detection ego_actor_id other_actor_id then
        match tl_state_map ego_actor_id, buffer_map ego_actor_id,
              buffer_map other_actor_id with
        | some reference_tl_state, some ego_buffer, some other_buffer =>
            let other_lead_distance := p.distance_to_leading other_actor_id
            match NegotiateCollision o ego_actor_id other_actor_id geometry_cache
                geodesic_boundary_map collision_locks ego_kinematic_state
                other_kinematic_state ego_attributes other_attributes
                reference_tl_state ego_buffer other_buffer look_ahead_index
                reference_lead_distance other_lead_distance with
            | none => none
            | some neg =>
                if neg.hazard then
                  let u : ℚ := ((randf k) % 101 : ℕ)
                  let consumes : Bool :=
                    decide (other_actor_type = ActorType.Vehicle) ||
                    decide (other_actor_type = ActorType.Pedestrian)
                  let k' := if consumes then k + 1 else k
                  if (other_actor_type = ActorType.Vehicle ∧
                        p.percentage_ignore_vehicles ego_actor_id ≤ u) ∨
                     (other_actor_type = ActorType.Pedestrian ∧
                        p.percentage_ignore_walkers ego_actor_id ≤ u) then
                    some (true, neg.available_distance_margin, other_actor_id,
                          neg.collision_locks, k')
                  else
                    caLoop o p randf state_map attribute_map tl_state_map buffer_map
                      ego_actor_id ego_kinematic_state ego_attributes look_ahead_index
                      reference_lead_distance rest neg.collision_locks
                      neg.geometry_cache neg.geodesic_boundary_map k'
                else
                  caLoop o p randf state_map attribute_map tl_state_map buffer_map
                    ego_actor_id ego_kinematic_state ego_attributes look_ahead_index
                    reference_lead_distance rest neg.collision_locks
                    neg.geometry_cache neg.geodesic_boundary_map k
        | _, _, _ =>
            caLoop o p randf state_map attribute_map tl_state_map buffer_map
              ego_actor_id ego_kinematic_state ego_attributes look_ahead_index
              reference_lead_distance rest collision_locks geometry_cache
              geodesic_boundary_map k
      else
        caLoop o p randf state_map attribute_map tl_state_map buffer_map
          ego_actor_id ego_kinematic_state ego_attributes look_ahead_index
          reference_lead_distance rest collision_locks geometry_cache
          geodesic_boundary_map k

/-- `CollisionAvoidance` (source lines 101-208).  Returns the
`CollisionHazardData` written into the ego's output slot, the lock map
after the tick and the new position in the random stream; `none` models a
container exception (in particular the unguarded `buffer_map->at(ego)` of
source line 126). -/
def CollisionAvoidance (o : GeomOracle) (p : SimParameters) (randf : Nat → Nat)
    (rand0 : Nat) (index : Nat) (vehicle_id_list : List Nat)
    (state_map : NMap KinematicState) (attribute_map : NMap StaticAttributes)
    (tl_state_map : NMap TrafficLightState) (buffer_map : NMap (List Waypoint))
    (overlapping : Nat → List Nat) (collision_locks : NMap CollisionLock) :
    Option (CollisionHazardData × NMap CollisionLock × Nat) :=
  match vehicle_id_list.get? index with
  | none => none
  | some ego_actor_id =>
      match state_map ego_actor_id, attribute_map ego_actor_id with
      | some ego_kinematic_state, some ego_attributes =>
          let ego_location := ego_kinematic_state.location
          match buffer_map ego_actor_id with
          | none => none
          | some ego_buffer =>
              match GetTargetWaypoint o ego_buffer JUNCTION_LOOK_AHEAD with
              | none => none
              | some (_, look_ahead_index) =>
                  match collectCandidates state_map ego_actor_id ego_location
                      (overlapping ego_actor_id) with
                  | none => none
                  | some candidates =>
                      let sorted := sortByDistance state_map ego_location candidates
                      let reference_lead_distance := p.distance_to_leading ego_actor_id
                      match caLoop o p randf state_map attribute_map tl_state_map
                          buffer_map ego_actor_id ego_kinematic_state ego_attributes
                          look_ahead_index reference_lead_distance sorted
                          collision_locks (fun _ => none) (fun _ => none) rand0 with
                      | none => none
                      | some (collision_hazard, available_distance_margin, obstacle_id,
                              locks', k') =>
                          some (⟨obstacle_id, collision_hazard,
                                 available_distance_margin⟩, locks', k')
      | _, _ => some (⟨0, false, Marg.inf⟩, collision_locks, rand0)

/-! ## Motion planning (`src/LibCarla/source/carla/trafficmanager/MotionPlan.h`) -/

/-- Modelled from the spec: `LocalizationUtils`' `DeviationDotProduct` is
not in `src`.  Per §4.6 it is the dot product of the ego heading with the
unit vector towards the target. -/
def DeviationDotProduct (o : GeomOracle) (ego_location ego_heading target_location : V3) : ℚ :=
  V3.dot ego_heading (makeUnitVector o (target_location.sub ego_location))

/-- Modelled from the spec: `LocalizationUtils`' `DeviationCrossProduct` is
not in `src`.  Per §4.6 it is the z-component of the cross product of the
ego heading with the unit vector towards the target. -/
def DeviationCrossProduct (o : GeomOracle) (ego_location ego_heading target_location : V3) : ℚ :=
  let next := makeUnitVector o (target_location.sub ego_location)
  ego_heading.x * next.y - ego_heading.y * next.x

/-- Modelled from the spec: `PIDController.h` is not in `src`.  §4.6:
"Update integrals from previous state using `Δt = current_time −
previous.timestamp`". -/
def PID_StateUpdate (previous_state : StateEntry)
    (ego_speed dynamic_target_velocity current_deviation current_time : ℚ) : StateEntry :=
  let dt := current_time - previous_state.time
  let velocity_error := dynamic_target_velocity - ego_speed
  ⟨current_deviation,
   previous_state.deviation_integral + current_deviation * dt,
   current_time,
   velocity_error,
   previous_state.velocity_integral + velocity_error * dt⟩

/-- Modelled from the spec: `PIDController.h` is not in `src`.  §4.6: "the
step produces throttle/brake/steer via standard discrete PID, saturated to
their ranges". -/
def PID_RunStep (current_state previous_state : StateEntry)
    (longitudinal_parameters lateral_parameters : List ℚ) : ActuationSignal :=
  let dt := current_state.time - previous_state.time
  let lon :=
    longitudinal_parameters.getD 0 0 * current_state.velocity +
    longitudinal_parameters.getD 1 0 * current_state.velocity_integral +
    longitudinal_parameters.getD 2 0 *
      ((current_state.velocity - previous_state.velocity) / dt)
  let lat :=
    lateral_parameters.getD 0 0 * current_state.deviation +
    lateral_parameters.getD 1 0 * current_state.deviation_integral +
    lateral_parameters.getD 2 0 *
      ((current_state.deviation - previous_state.deviation) / dt)
  ⟨if lon ≥ 0 then min lon 1 else 0,
   if lon ≥ 0 then 0 else min (-lon) 1,
   max (-1) (min lat 1)⟩

/-- The teleport-advance pose computation (`MotionPlan.h` lines 194-209):
select a waypoint at the target displacement, extend along its heading by
any missing displacement, and keep the waypoint's rotation. -/
def teleportAdvanceTransform (o : GeomOracle) (waypoint_buffer : List Waypoint)
    (ego_location : V3) (dynamic_target_velocity : ℚ) : Option Transform := do
  let target_displacement := dynamic_target_velocity * HYBRID_MODE_DT
  let (teleport_target_waypoint, _) ←
    GetTargetWaypoint o waypoint_buffer target_displacement
  let base_displacement := o.sqrtq (V3.distSq teleport_target_waypoint.loc ego_location)
  let missing_displacement :=
    if base_displacement < target_displacement then
      target_displacement - base_displacement
    else 0
  let target_base_transform := teleport_target_waypoint.transform
  let target_heading := target_base_transform.rotation.fwd
  let teleportation_location :=
    target_base_transform.location.add (V3.scale missing_displacement target_heading)
  some ⟨teleportation_location, target_base_transform.rotation⟩

/-- The collision-related longitudinal resolution (`MotionPlan.h` lines
96-138): returns `(collision_emergency_stop, dynamic_target_velocity)`
before the clamp; `none` models `state_map.at` failing on the hazard
actor. -/
def collisionHandling (o : GeomOracle) (collision_hazard : CollisionHazardData)
    (state_map : NMap KinematicState) (ego_velocity ego_heading : V3)
    (max_target_velocity : ℚ) : Option (Bool × ℚ) :=
  if collision_hazard.hazard then
    match state_map collision_hazard.hazard_actor_id with
    | none => none
    | some other_kinematic_state =>
        let other_velocity := other_kinematic_state.velocity
        let ego_relative_speed := vecLen o (ego_velocity.sub other_velocity)
        let available_distance_margin := collision_hazard.available_distance_margin
        let other_speed_along_heading := V3.dot other_velocity ego_heading
        let step1 : Bool × ℚ :=
          if ego_relative_speed > EPSILON_RELATIVE_SPEED then
            let follow_lead_distance :=
              ego_relative_speed * FOLLOW_DISTANCE_RATE + MIN_FOLLOW_LEAD_DISTANCE
            if available_distance_margin.gtQ follow_lead_distance then
              (false, other_speed_along_heading + RELATIVE_APPROACH_SPEED)
            else if available_distance_margin.gtQ CRITICAL_BRAKING_MARGIN then
              (false, max other_speed_along_heading RELATIVE_APPROACH_SPEED)
            else
              (true, max_target_velocity)
          else (false, max_target_velocity)
        some (step1.1 || available_distance_margin.ltQ CRITICAL_BRAKING_MARGIN, step1.2)
  else some (false, max_target_velocity)

/-- Result of one `MotionPlan` call: the emitted command and the two
persistent maps after the call. -/
structure MPOut where
  command : Command
  pid_state_map : NMap StateEntry
  teleportation_instance : NMap ℚ

/-- `MotionPlan` (`MotionPlan.h` lines 27-237).  All `system_clock::now()`
reads within one call are modelled by the single instant `current_time`;
`none` models the unguarded `.at` accesses on missing entries.  The
source's insert-if-missing into `pid_state_map` (lines 68-72) followed by
the unconditional overwrite (lines 220-221) is modelled as a read with the
initial-state default plus one final update, which agrees pointwise; the
same read-with-default models `teleportation_instance.at` right after the
insert-if-missing of lines 182-185. -/
def MotionPlan (o : GeomOracle) (p : SimParameters) (current_time : ℚ)
    (index : Nat) (vehicle_id_list : List Nat)
    (state_map : NMap KinematicState) (attribute_map : NMap StaticAttributes)
    (buffer_map : NMap (List Waypoint))
    (urban_longitudinal highway_longitudinal urban_lateral highway_lateral : List ℚ)
    (collision_frame : List CollisionHazardData) (tl_frame : List Bool)
    (pid_state_map : NMap StateEntry) (teleportation_instance : NMap ℚ) :
    Option MPOut := do
  let actor_id ← vehicle_id_list.get? index
  let kinematic_state ← state_map actor_id
  let ego_location := kinematic_state.location
  let ego_velocity := kinematic_state.velocity
  let ego_speed := vecLen o ego_velocity
  let ego_heading := kinematic_state.rotation.fwd
  let ego_physics_enabled := kinematic_state.physics_enabled
  let waypoint_buffer ← buffer_map actor_id
  let collision_hazard ← collision_frame.get? index
  let tl_hazard ← tl_frame.get? index
  let target_point_distance :=
    max (ego_speed * TARGET_WAYPOINT_TIME_HORIZON) TARGET_WAYPOINT_HORIZON_LENGTH
  let tw ← GetTargetWaypoint o waypoint_buffer target_point_distance
  let target_location := tw.1.loc
  let dot_product0 := DeviationDotProduct o ego_location ego_heading target_location
  let cross_product := DeviationCrossProduct o ego_location ego_heading target_location
  let dot_product := 1 - dot_product0
  let current_deviation := if cross_product < 0 then -dot_product else dot_product
  let previous_state := (pid_state_map actor_id).getD ⟨0, 0, current_time, 0, 0⟩
  let longitudinal_parameters :=
    if ego_speed > HIGHWAY_SPEED then highway_longitudinal else urban_longitudinal
  let lateral_parameters :=
    if ego_speed > HIGHWAY_SPEED then highway_lateral else urban_lateral
  let ego_attributes ← attribute_map actor_id
  let max_target_velocity := p.target_velocity actor_id ego_attributes.speed_limit * (5/18)
  let ch ← collisionHandling o collision_hazard state_map ego_velocity ego_heading
    max_target_velocity
  let collision_emergency_stop := ch.1
  let dynamic_target_velocity := min max_target_velocity ch.2
  let emergency_stop := tl_hazard || collision_emergency_stop
  if ego_physics_enabled then
    let cs0 := PID_StateUpdate previous_state ego_speed dynamic_target_velocity
      current_deviation current_time
    let as0 := PID_RunStep cs0 previous_state longitudinal_parameters lateral_parameters
    let current_state : StateEntry :=
      if emergency_stop then ⟨cs0.deviation, 0, cs0.time, cs0.velocity, 0⟩ else cs0
    let actuation_signal : ActuationSignal :=
      if emergency_stop then ⟨0, 1, as0.steer⟩ else as0
    some ⟨Command.applyVehicleControl actor_id actuation_signal,
          pid_state_map.upd actor_id current_state, teleportation_instance⟩
  else
    let current_state : StateEntry := ⟨0, 0, current_time, 0, 0⟩
    let tele0 :=
      if (teleportation_instance actor_id).isSome then teleportation_instance
      else teleportation_instance.upd actor_id current_time
    let t0 := (teleportation_instance actor_id).getD current_time
    let elapsed_time := current_time - t0
    if !emergency_stop && (p.synchronous_mode || decide (elapsed_time > HYBRID_MODE_DT)) then
      let tt ← teleportAdvanceTransform o waypoint_buffer ego_location
        dynamic_target_velocity
      some ⟨Command.applyTransform actor_id tt,
            pid_state_map.upd actor_id current_state, tele0⟩
    else
      some ⟨Command.applyTransform actor_id ⟨ego_location, kinematic_state.rotation⟩,
            pid_state_map.upd actor_id current_state, tele0⟩

/-! ## Concrete instantiations used by witnesses and counterexamples -/

/-- Sum of the x-coordinates of a ring; a helper for building concrete
polygon-distance oracles. -/
def sumX (ring : List Point2D) : ℚ := ring.foldl (fun acc pt => acc + pt.1) 0

/-- Concrete oracle whose polygon distance is identically zero (two
polygons that touch everywhere); `sqrt` is exact on perfect squares. -/
def oracleTouch : GeomOracle := ⟨ratSqrt, fun _ _ => 0⟩

/-- Concrete oracle with a *symmetric* polygon distance (as
`boost::geometry::distance` is) that still distinguishes unordered pairs of
rings. -/
def oracleSym : GeomOracle :=
  ⟨ratSqrt, fun a b => sumX a * sumX b + sumX a + sumX b⟩

/-- Forward-facing rotation along +x. -/
def rotPX : Rotation := ⟨⟨1, 0, 0⟩⟩

/-- A non-junction waypoint at the origin facing +x. -/
def wpO : Waypoint := ⟨⟨⟨0, 0, 0⟩, rotPX⟩, false⟩

/-- A non-junction waypoint at (10,0,0) facing +x. -/
def wpTen : Waypoint := ⟨⟨⟨10, 0, 0⟩, rotPX⟩, false⟩

/-- A non-junction waypoint at (5,0,0) facing +x. -/
def wpFive : Waypoint := ⟨⟨⟨5, 0, 0⟩, rotPX⟩, false⟩

/-- Stationary vehicle state at the origin facing +x. -/
def ksO : KinematicState := ⟨⟨0, 0, 0⟩, rotPX, ⟨0, 0, 0⟩, true⟩

/-- Stationary vehicle state at (10,0,0) facing +x. -/
def ksTen : KinematicState := ⟨⟨10, 0, 0⟩, rotPX, ⟨0, 0, 0⟩, true⟩

/-- Stationary vehicle state at (5,0,0) facing +x. -/
def ksFive : KinematicState := ⟨⟨5, 0, 0⟩, rotPX, ⟨0, 0, 0⟩, true⟩

/-- Vehicle attributes: half length 2, half width 1. -/
def vehAttr : StaticAttributes := ⟨ActorType.Vehicle, 2, 1, 30⟩

/-- Green light, not at a traffic light. -/
def tlGreen : TrafficLightState := ⟨TLS.Green, false⟩

/-- The empty geometry cache. -/
def emptyCache : GeomCache := fun _ => none

/-- The empty geodesic boundary map. -/
def emptyGB : NMap (List V3) := fun _ => none

/-- The empty collision lock map. -/
def noLocks : NMap CollisionLock := fun _ => none

end CarlaTM

namespace CarlaTM

/-- The geometry cache left behind by a first `(2,1)` query on an empty
per-tick cache (it stores under the mis-built key `(1,1)`). -/
def cacheAfter21 : GeomCache :=
  ((GetGeometryBetweenActors oracleSym emptyCache emptyGB 2 1 ksTen ksO
    vehAttr vehAttr [wpTen] [wpO] noLocks 2 2).map (·.2.1)).getD emptyCache

end CarlaTM

namespace CarlaTM

/-- Configuration used in concrete scenarios: collision detection on for
everyone, zero ignore percentages, a 2 m lead distance, asynchronous mode,
18 kph configured target velocity. -/
def pTest : SimParameters :=
  ⟨fun _ => 2, fun _ _ => true, fun _ => 0, fun _ => 0, false, fun _ _ => 18⟩

/-- A stale lock held by ego 7 on lead vehicle 9. -/
def staleLocks : NMap CollisionLock := NMap.upd NMap.empty 7 ⟨9, 1, 1⟩

end CarlaTM





namespace CarlaTM

/-- Physics-less variant of the origin state. -/
def ksONoPhys : KinematicState := ⟨⟨0, 0, 0⟩, rotPX, ⟨0, 0, 0⟩, false⟩

/-- An all-clear collision record. -/
def chdClear : CollisionHazardData := ⟨0, false, Marg.inf⟩

end CarlaTM



namespace CarlaTM

/-! ## Basic lemmas about the map embedding -/

theorem NMap.upd_self {α : Type} (m : NMap α) (k : Nat) (v : α) :
    (m.upd k v) k = some v := by
  simp [NMap.upd]

theorem NMap.del_self {α : Type} (m : NMap α) (k : Nat) :
    (m.del k) k = none := by
  simp [NMap.del]

/-- The hazard-path lock update always leaves an entry for the reference
vehicle. -/
theorem lockUpdate_isSome (l : NMap CollisionLock) (r o : Nat)
    (g : GeometryComparison) : ((lockUpdate l r o g) r).isSome = true := by
  unfold lockUpdate
  cases h : l r with
  | none => simp [NMap.upd]
  | some lock =>
      dsimp only
      split <;> simp [NMap.upd]

/-! ## Negotiator helper lemmas -/

/-- After a successful `negotiateCore`, a lock entry for the reference
vehicle exists exactly when the call reported a hazard. -/
theorem negotiateCore_locks_iff (o : GeomOracle)
    (reference_vehicle_id other_actor_id : Nat)
    (geometry_cache : GeomCache) (geodesic_boundary_map : NMap (List V3))
    (collision_locks : NMap CollisionLock)
    (reference_vehicle_state other_vehicle_state : KinematicState)
    (reference_vehicle_attributes other_vehicle_attributes : StaticAttributes)
    (reference_tl_state : TrafficLightState)
    (reference_vehicle_buffer other_vehicle_buffer : List Waypoint)
    (reference_lead_distance other_lead_distance : ℚ)
    (closest_point look_ahead_point : Waypoint) (res : NegOut)
    (h : negotiateCore o reference_vehicle_id other_actor_id geometry_cache
      geodesic_boundary_map collision_locks reference_vehicle_state
      other_vehicle_state reference_vehicle_attributes other_vehicle_attributes
      reference_tl_state reference_vehicle_buffer other_vehicle_buffer
      reference_lead_distance other_lead_distance closest_point look_ahead_point
      = some res) :
    (res.collision_locks reference_vehicle_id).isSome = res.hazard := by
  unfold negotiateCore at h
  split at h
  · cases hg : GetGeometryBetweenActors o geometry_cache geodesic_boundary_map
        reference_vehicle_id other_actor_id reference_vehicle_state
        other_vehicle_state reference_vehicle_attributes other_vehicle_attributes
        reference_vehicle_buffer other_vehicle_buffer collision_locks
        reference_lead_distance other_lead_distance with
    | none => rw [hg] at h; cases h
    | some t =>
        obtain ⟨g, cache', gbm'⟩ := t
        rw [hg] at h
        simp only at h
        split at h
        · simp only [Option.some.injEq] at h
          subst h
          simpa using lockUpdate_isSome collision_locks reference_vehicle_id
            other_actor_id g
        · simp only [Option.some.injEq] at h
          subst h
          simp [NMap.del]
  · simp only [Option.some.injEq] at h
    subst h
    simp [NMap.del]

end CarlaTM
namespace CarlaTM

/-- Lock presence after a successful `NegotiateCollision` equals the hazard
verdict (helper shared by several results). -/
theorem negotiate_locks_iff (o : GeomOracle)
    (reference_vehicle_id other_actor_id : Nat)
    (geometry_cache : GeomCache) (geodesic_boundary_map : NMap (List V3))
    (collision_locks : NMap CollisionLock)
    (reference_vehicle_state other_vehicle_state : KinematicState)
    (reference_vehicle_attributes other_vehicle_attributes : StaticAttributes)
    (reference_tl_state : TrafficLightState)
    (reference_vehicle_buffer other_vehicle_buffer : List Waypoint)
    (reference_junction_look_ahead_index : Nat)
    (reference_lead_distance other_lead_distance : ℚ) (res : NegOut)
    (h : NegotiateCollision o reference_vehicle_id other_actor_id geometry_cache
      geodesic_boundary_map collision_locks reference_vehicle_state
      other_vehicle_state reference_vehicle_attributes other_vehicle_attributes
      reference_tl_state reference_vehicle_buffer other_vehicle_buffer
      reference_junction_look_ahead_index reference_lead_distance
      other_lead_distance = some res) :
    (res.collision_locks reference_vehicle_id).isSome = res.hazard := by
  unfold NegotiateCollision at h
  cases hcp : reference_vehicle_buffer.head? with
  | none => rw [hcp] at h; cases h
  | some closest_point =>
      cases hlp : reference_vehicle_buffer.get? reference_junction_look_ahead_index with
      | none => rw [hcp, hlp] at h; cases h
      | some look_ahead_point =>
          rw [hcp, hlp] at h
          exact negotiateCore_locks_iff o reference_vehicle_id other_actor_id
            geometry_cache geodesic_boundary_map collision_locks
            reference_vehicle_state other_vehicle_state
            reference_vehicle_attributes other_vehicle_attributes
            reference_tl_state reference_vehicle_buffer other_vehicle_buffer
            reference_lead_distance other_lead_distance closest_point
            look_ahead_point res h

/-- Margin characterization for a successful `negotiateCore`: no hazard
gives `+∞`; a hazard gives exactly the clamped geodesic margin. -/
theorem negotiateCore_margin (o : GeomOracle)
    (reference_vehicle_id other_actor_id : Nat)
    (geometry_cache : GeomCache) (geodesic_boundary_map : NMap (List V3))
    (collision_locks : NMap CollisionLock)
    (reference_vehicle_state other_vehicle_state : KinematicState)
    (reference_vehicle_attributes other_vehicle_attributes : StaticAttributes)
    (reference_tl_state : TrafficLightState)
    (reference_vehicle_buffer other_vehicle_buffer : List Waypoint)
    (reference_lead_distance other_lead_distance : ℚ)
    (closest_point look_ahead_point : Waypoint) (res : NegOut)
    (h : negotiateCore o reference_vehicle_id other_actor_id geometry_cache
      geodesic_boundary_map collision_locks reference_vehicle_state
      other_vehicle_state reference_vehicle_attributes other_vehicle_attributes
      reference_tl_state reference_vehicle_buffer other_vehicle_buffer
      reference_lead_distance other_lead_distance closest_point look_ahead_point
      = some res) :
    (res.hazard = false → res.available_distance_margin = Marg.inf) ∧
    (res.hazard = true → ∃ g : GeometryComparison,
      (GetGeometryBetweenActors o geometry_cache geodesic_boundary_map
        reference_vehicle_id other_actor_id reference_vehicle_state
        other_vehicle_state reference_vehicle_attributes other_vehicle_attributes
        reference_vehicle_buffer other_vehicle_buffer collision_locks
        reference_lead_distance other_lead_distance).map (·.1) = some g ∧
      res.available_distance_margin =
        Marg.val (max (g.reference_vehicle_to_other_geodesic -
          max reference_lead_distance BOUNDARY_EXTENSION_MINIMUM) 0) ∧
      0 ≤ max (g.reference_vehicle_to_other_geodesic -
          max reference_lead_distance BOUNDARY_EXTENSION_MINIMUM) (0 : ℚ)) := by
  unfold negotiateCore at h
  split at h
  · cases hg : GetGeometryBetweenActors o geometry_cache geodesic_boundary_map
        reference_vehicle_id other_actor_id reference_vehicle_state
        other_vehicle_state reference_vehicle_attributes other_vehicle_attributes
        reference_vehicle_buffer other_vehicle_buffer collision_locks
        reference_lead_distance other_lead_distance with
    | none => rw [hg] at h; cases h
    | some t =>
        obtain ⟨g, cache', gbm'⟩ := t
        rw [hg] at h
        simp only at h
        split at h
        · simp only [Option.some.injEq] at h
          subst h
          constructor
          · intro hfalse; cases hfalse
          · intro _
            exact ⟨g, rfl, rfl, le_max_right _ _⟩
        · simp only [Option.some.injEq] at h
          subst h
          exact ⟨fun _ => rfl, fun htrue => by cases htrue⟩
  · simp only [Option.some.injEq] at h
    subst h
    exact ⟨fun _ => rfl, fun htrue => by cases htrue⟩

/-- Margin characterization lifted to `NegotiateCollision`. -/
theorem negotiate_margin (o : GeomOracle)
    (reference_vehicle_id other_actor_id : Nat)
    (geometry_cache : GeomCache) (geodesic_boundary_map : NMap (List V3))
    (collision_locks : NMap CollisionLock)
    (reference_vehicle_state other_vehicle_state : KinematicState)
    (reference_vehicle_attributes other_vehicle_attributes : StaticAttributes)
    (reference_tl_state : TrafficLightState)
    (reference_vehicle_buffer other_vehicle_buffer : List Waypoint)
    (reference_junction_look_ahead_index : Nat)
    (reference_lead_distance other_lead_distance : ℚ) (res : NegOut)
    (h : NegotiateCollision o reference_vehicle_id other_actor_id geometry_cache
      geodesic_boundary_map collision_locks reference_vehicle_state
      other_vehicle_state reference_vehicle_attributes other_vehicle_attributes
      reference_tl_state reference_vehicle_buffer other_vehicle_buffer
      reference_junction_look_ahead_index reference_lead_distance
      other_lead_distance = some res) :
    (res.hazard = false → res.available_distance_margin = Marg.inf) ∧
    (res.hazard = true → ∃ g : GeometryComparison,
      (GetGeometryBetweenActors o geometry_cache geodesic_boundary_map
        reference_vehicle_id other_actor_id reference_vehicle_state
        other_vehicle_state reference_vehicle_attributes other_vehicle_attributes
        reference_vehicle_buffer other_vehicle_buffer collision_locks
        reference_lead_distance other_lead_distance).map (·.1) = some g ∧
      res.available_distance_margin =
        Marg.val (max (g.reference_vehicle_to_other_geodesic -
          max reference_lead_distance BOUNDARY_EXTENSION_MINIMUM) 0) ∧
      0 ≤ max (g.reference_vehicle_to_other_geodesic -
          max reference_lead_distance BOUNDARY_EXTENSION_MINIMUM) (0 : ℚ)) := by
  unfold NegotiateCollision at h
  cases hcp : reference_vehicle_buffer.head? with
  | none => rw [hcp] at h; cases h
  | some closest_point =>
      cases hlp : reference_vehicle_buffer.get? reference_junction_look_ahead_index with
      | none => rw [hcp, hlp] at h; cases h
      | some look_ahead_point =>
          rw [hcp, hlp] at h
          exact negotiateCore_margin o reference_vehicle_id other_actor_id
            geometry_cache geodesic_boundary_map collision_locks
            reference_vehicle_state other_vehicle_state
            reference_vehicle_attributes other_vehicle_attributes
            reference_tl_state reference_vehicle_buffer other_vehicle_buffer
            reference_lead_distance other_lead_distance closest_point
            look_ahead_point res h

end CarlaTM
namespace CarlaTM

/-- When the gate fails, `NegotiateCollision` returns no-hazard with `+∞`
margin, flushes any lock, and leaves both per-tick caches untouched. -/
theorem negotiate_gate_false (o : GeomOracle)
    (reference_vehicle_id other_actor_id : Nat)
    (geometry_cache : GeomCache) (geodesic_boundary_map : NMap (List V3))
    (collision_locks : NMap CollisionLock)
    (reference_vehicle_state other_vehicle_state : KinematicState)
    (reference_vehicle_attributes other_vehicle_attributes : StaticAttributes)
    (reference_tl_state : TrafficLightState)
    (reference_vehicle_buffer other_vehicle_buffer : List Waypoint)
    (reference_junction_look_ahead_index : Nat)
    (reference_lead_distance other_lead_distance : ℚ)
    (closest_point look_ahead_point : Waypoint)
    (hcp : reference_vehicle_buffer.head? = some closest_point)
    (hlp : reference_vehicle_buffer.get? reference_junction_look_ahead_index =
      some look_ahead_point)
    (hgate : negotiateGate reference_vehicle_state other_vehicle_state
      reference_vehicle_attributes other_vehicle_attributes reference_tl_state
      reference_vehicle_id other_actor_id collision_locks o closest_point
      look_ahead_point = false) :
    NegotiateCollision o reference_vehicle_id other_actor_id geometry_cache
      geodesic_boundary_map collision_locks reference_vehicle_state
      other_vehicle_state reference_vehicle_attributes other_vehicle_attributes
      reference_tl_state reference_vehicle_buffer other_vehicle_buffer
      reference_junction_look_ahead_index reference_lead_distance
      other_lead_distance =
    some ⟨false, Marg.inf, collision_locks.del reference_vehicle_id,
          geometry_cache, geodesic_boundary_map⟩ := by
  unfold NegotiateCollision negotiateCore
  rw [hcp, hlp]
  dsimp only
  rw [hgate]
  simp

end CarlaTM
namespace CarlaTM

/-- The hazard rule in propositional form. -/
theorem hazardRule_eq_true_iff (g : GeometryComparison) (a : Bool) :
    hazardRule g a = true ↔
      (g.inter_geodesic_distance < 1/10 ∧
        ((¬ g.inter_bbox_distance < 1/10 ∧
           (¬ g.other_vehicle_to_reference_geodesic > 1/10 ∨
             (g.other_vehicle_to_reference_geodesic > 1/10 ∧
              g.reference_vehicle_to_other_geodesic > 1/10 ∧
              a = false ∧
              ¬ g.reference_vehicle_to_other_geodesic <
                 g.other_vehicle_to_reference_geodesic))) ∨
         (g.inter_bbox_distance < 1/10 ∧ a = false ∧
          ¬ g.reference_vehicle_to_other_geodesic <
             g.other_vehicle_to_reference_geodesic))) := by
  cases a
  · simp [hazardRule]
    tauto
  · simp [hazardRule]

/-- The negotiation gate in propositional form: exactly the condition of
source lines 497-499, with the ranges spelled out. -/
theorem negotiateGate_eq_true_iff
    (reference_vehicle_state other_vehicle_state : KinematicState)
    (reference_vehicle_attributes other_vehicle_attributes : StaticAttributes)
    (reference_tl_state : TrafficLightState)
    (reference_vehicle_id other_actor_id : Nat)
    (collision_locks : NMap CollisionLock)
    (o : GeomOracle) (closest_point look_ahead_point : Waypoint) :
    negotiateGate reference_vehicle_state other_vehicle_state
      reference_vehicle_attributes other_vehicle_attributes reference_tl_state
      reference_vehicle_id other_actor_id collision_locks o closest_point
      look_ahead_point = true ↔
    (¬ ((closest_point.junction = false ∧ look_ahead_point.junction = true) ∧
        reference_tl_state.at_traffic_light = true ∧
        reference_tl_state.tl_state ≠ TLS.Green) ∧
      ((closest_point.junction = true ∧
         V3.distSq reference_vehicle_state.location other_vehicle_state.location <
           (GetBoundingBoxExtention reference_vehicle_id reference_vehicle_state
              collision_locks +
            (reference_vehicle_attributes.half_length * SQUARE_ROOT_OF_TWO +
             other_vehicle_attributes.half_length * SQUARE_ROOT_OF_TWO) +
            GetBoundingBoxExtention other_actor_id other_vehicle_state
              collision_locks) *
           (GetBoundingBoxExtention reference_vehicle_id reference_vehicle_state
              collision_locks +
            (reference_vehicle_attributes.half_length * SQUARE_ROOT_OF_TWO +
             other_vehicle_attributes.half_length * SQUARE_ROOT_OF_TWO) +
            GetBoundingBoxExtention other_actor_id other_vehicle_state
              collision_locks)) ∨
       (closest_point.junction = false ∧
         V3.dot reference_vehicle_state.rotation.fwd
           (refToOtherUnit o reference_vehicle_state.location
             other_vehicle_state.location) > 0 ∧
         V3.distSq reference_vehicle_state.location other_vehicle_state.location <
           (GetBoundingBoxExtention reference_vehicle_id reference_vehicle_state
              collision_locks +
            (reference_vehicle_attributes.half_length * SQUARE_ROOT_OF_TWO +
             other_vehicle_attributes.half_length * SQUARE_ROOT_OF_TWO)) *
           (GetBoundingBoxExtention reference_vehicle_id reference_vehicle_state
              collision_locks +
            (reference_vehicle_attributes.half_length * SQUARE_ROOT_OF_TWO +
             other_vehicle_attributes.half_length * SQUARE_ROOT_OF_TWO))))) := by
  cases hj : closest_point.junction <;>
    cases hl : look_ahead_point.junction <;>
      cases ht : reference_tl_state.at_traffic_light <;>
        simp [negotiateGate, hj, hl, ht]

end CarlaTM
namespace CarlaTM

/-- C1: for every ordered pair that passes the gating predicates,
`NegotiateCollision` returns hazard=true iff `corridors_touching`
(`inter_geodesic_distance < 0.1`) holds together with either (bodies not
touching AND (NOT `ego_path_clear` OR (both paths clear AND NOT
`ego_angular_priority` AND NOT `ego_path_priority`))) or (bodies touching
AND NOT `ego_angular_priority` AND NOT `ego_path_priority`), the predicates
being computed from the pair's `GeometryComparison` (and the headings, for
the angular priority) exactly as the source computes them. -/
theorem C1_hazard_rule (o : GeomOracle) (reference_vehicle_id other_actor_id : Nat)
    (geometry_cache : GeomCache) (geodesic_boundary_map : NMap (List V3))
    (collision_locks : NMap CollisionLock)
    (reference_vehicle_state other_vehicle_state : KinematicState)
    (reference_vehicle_attributes other_vehicle_attributes : StaticAttributes)
    (reference_tl_state : TrafficLightState)
    (reference_vehicle_buffer other_vehicle_buffer : List Waypoint)
    (reference_junction_look_ahead_index : Nat)
    (reference_lead_distance other_lead_distance : ℚ)
    (closest_point look_ahead_point : Waypoint) (g : GeometryComparison)
    (res : NegOut)
    (hcp : reference_vehicle_buffer.head? = some closest_point)
    (hlp : reference_vehicle_buffer.get? reference_junction_look_ahead_index =
      some look_ahead_point)
    (hgate : negotiateGate reference_vehicle_state other_vehicle_state
      reference_vehicle_attributes other_vehicle_attributes reference_tl_state
      reference_vehicle_id other_actor_id collision_locks o closest_point
      look_ahead_point = true)
    (hg : (GetGeometryBetweenActors o geometry_cache geodesic_boundary_map
      reference_vehicle_id other_actor_id reference_vehicle_state
      other_vehicle_state reference_vehicle_attributes other_vehicle_attributes
      reference_vehicle_buffer other_vehicle_buffer collision_locks
      reference_lead_distance other_lead_distance).map (·.1) = some g)
    (hres : NegotiateCollision o reference_vehicle_id other_actor_id
      geometry_cache geodesic_boundary_map collision_locks
      reference_vehicle_state other_vehicle_state reference_vehicle_attributes
      other_vehicle_attributes reference_tl_state reference_vehicle_buffer
      other_vehicle_buffer reference_junction_look_ahead_index
      reference_lead_distance other_lead_distance = some res) :
    res.hazard = true ↔
      (g.inter_geodesic_distance < 1/10 ∧
        ((¬ g.inter_bbox_distance < 1/10 ∧
           (¬ g.other_vehicle_to_reference_geodesic > 1/10 ∨
             (g.other_vehicle_to_reference_geodesic > 1/10 ∧
              g.reference_vehicle_to_other_geodesic > 1/10 ∧
              egoAngularPriority o reference_vehicle_state other_vehicle_state
                = false ∧
              ¬ g.reference_vehicle_to_other_geodesic <
                 g.other_vehicle_to_reference_geodesic))) ∨
         (g.inter_bbox_distance < 1/10 ∧
          egoAngularPriority o reference_vehicle_state other_vehicle_state
            = false ∧
          ¬ g.reference_vehicle_to_other_geodesic <
             g.other_vehicle_to_reference_geodesic))) := by
  rw [← hazardRule_eq_true_iff g
    (egoAngularPriority o reference_vehicle_state other_vehicle_state)]
  unfold NegotiateCollision at hres
  rw [hcp, hlp] at hres
  unfold negotiateCore at hres
  dsimp only at hres
  rw [hgate] at hres
  simp only [if_true] at hres
  cases hgg : GetGeometryBetweenActors o geometry_cache geodesic_boundary_map
      reference_vehicle_id other_actor_id reference_vehicle_state
      other_vehicle_state reference_vehicle_attributes other_vehicle_attributes
      reference_vehicle_buffer other_vehicle_buffer collision_locks
      reference_lead_distance other_lead_distance with
  | none => rw [hgg] at hg; cases hg
  | some t =>
      obtain ⟨g', cache', gbm'⟩ := t
      rw [hgg] at hres hg
      simp only [Option.map_some', Option.some.injEq] at hg
      subst hg
      simp only at hres
      split at hres
      · simp only [Option.some.injEq] at hres
        subst hres
        simpa using ‹hazardRule g' _ = true›
      · simp only [Option.some.injEq] at hres
        subst hres
        simpa using ‹¬ hazardRule g' _ = true›

end CarlaTM
namespace CarlaTM

unseal Rat.add Rat.sub Rat.mul Rat.inv in
/-- Witness for C1 at a concrete head-to-tail scenario. -/
theorem C1_hazard_rule_witness :
    negotiateGate ksO ksFive vehAttr vehAttr tlGreen 7 8 noLocks oracleTouch
      wpO wpO = true ∧
    (NegotiateCollision oracleTouch 7 8 emptyCache emptyGB noLocks ksO ksFive
      vehAttr vehAttr tlGreen [wpO] [wpFive] 0 2 2).map (·.hazard) =
      some true := by
  have hgate : negotiateGate ksO ksFive vehAttr vehAttr tlGreen 7 8 noLocks
      oracleTouch wpO wpO = true := by decide
  refine ⟨hgate, ?_⟩
  cases hres : NegotiateCollision oracleTouch 7 8 emptyCache emptyGB noLocks
      ksO ksFive vehAttr vehAttr tlGreen [wpO] [wpFive] 0 2 2 with
  | none =>
      have hs : (NegotiateCollision oracleTouch 7 8 emptyCache emptyGB noLocks
        ksO ksFive vehAttr vehAttr tlGreen [wpO] [wpFive] 0 2 2).isSome = true := by
        decide
      rw [hres] at hs
      cases hs
  | some res =>
      have hg : (GetGeometryBetweenActors oracleTouch emptyCache emptyGB 7 8
          ksO ksFive vehAttr vehAttr [wpO] [wpFive] noLocks 2 2).map (·.1) =
          some ⟨0, 0, 0, 0⟩ := by decide
      have h := C1_hazard_rule oracleTouch 7 8 emptyCache emptyGB noLocks
        ksO ksFive vehAttr vehAttr tlGreen [wpO] [wpFive] 0 2 2 wpO wpO
        ⟨0, 0, 0, 0⟩ res rfl rfl hgate hg hres
      have hh : res.hazard = true :=
        h.mpr ⟨by decide, Or.inr ⟨by decide, by decide, by decide⟩⟩
      simp [hh]

end CarlaTM
namespace CarlaTM

/-- Reference vehicle heading +y at the origin. -/
def ksC2ref : KinematicState := ⟨⟨0, 0, 0⟩, ⟨⟨0, 1, 0⟩⟩, ⟨0, 0, 0⟩, true⟩

/-- Other vehicle at (10,0,0) heading −x (pointing at the reference). -/
def ksC2other : KinematicState := ⟨⟨10, 0, 0⟩, ⟨⟨-1, 0, 0⟩⟩, ⟨0, 0, 0⟩, true⟩

unseal Rat.add Rat.sub Rat.mul Rat.inv in
/-- C2: the `ego_angular_priority` predicate computed by the source (which
reads *both* headings from `reference_vehicle_state.rotation`, source line
463) disagrees with the spec's definition (which uses the other vehicle's
forward vector for the second dot product) at this concrete input, where the
other vehicle points straight at the reference vehicle. -/
theorem C2_angular_priority_heading_bug :
    egoAngularPriority oracleTouch ksC2ref ksC2other = false ∧
    egoAngularPrioritySpec oracleTouch ksC2ref ksC2other = true := by
  constructor <;> decide

end CarlaTM
namespace CarlaTM

unseal Rat.add Rat.sub Rat.mul Rat.inv in
/-- C4: the cache key for a reversed query is mis-built (`other|other`
instead of `other|reference`, source line 380).  Consequently, against one
and the same per-tick cache — here the cache left behind by a first `(2,1)`
query, which stored its result under the key `(1,1)` — the queries `(2,1)`
and `(1,2)` return *identical* tuples `(212, 52, 70, 158)` instead of
tuples with the two geodesic fields swapped; the claimed biconditional
fails since `212 ≠ 52`.  The polygon-distance oracle used here is
symmetric, as `boost::geometry::distance` is. -/
theorem C4_cache_key_bug :
    geometryKey 2 1 = (1, 1) ∧
    (GetGeometryBetweenActors oracleSym cacheAfter21 emptyGB 2 1 ksTen ksO
      vehAttr vehAttr [wpTen] [wpO] noLocks 2 2).map (·.1) =
      some ⟨212, 52, 70, 158⟩ ∧
    (GetGeometryBetweenActors oracleSym cacheAfter21 emptyGB 1 2 ksO ksTen
      vehAttr vehAttr [wpO] [wpTen] noLocks 2 2).map (·.1) =
      some ⟨212, 52, 70, 158⟩ ∧
    (212 : ℚ) ≠ 52 := by
  refine ⟨by decide, by decide, by decide, by decide⟩

end CarlaTM
namespace CarlaTM

unseal Rat.add Rat.sub Rat.mul Rat.inv in
/-- C3 counterexample: ego 7 holds a stale lock (from an earlier tick) and
has no collision candidate this tick.  The driver writes `hazard=false`
yet the lock entry survives, because locks are only flushed inside
`NegotiateCollision`, which is never called. -/
theorem C3_counterexample_stale_lock :
    (CollisionAvoidance oracleTouch pTest (fun _ => 0) 0 0 [7]
      (NMap.upd NMap.empty 7 ksO) (NMap.upd NMap.empty 7 vehAttr)
      (NMap.upd NMap.empty 7 tlGreen) (NMap.upd NMap.empty 7 [wpO])
      (fun _ => []) staleLocks).map
        (fun r => (r.1.hazard, (r.2.1 7).isSome)) = some (false, true) := by
  decide

/-- C3 (amended): after every *successful `NegotiateCollision` call*, the
lock map contains an entry for the reference vehicle iff the call returned
hazard=true.  (At driver level the claimed equivalence fails, see the
counterexample: with no negotiated candidate — or a last candidate whose
detected hazard the random ignore policy suppresses — a lock survives while
`hazard=false` is written.) -/
theorem C3_lock_iff_negotiation (o : GeomOracle)
    (reference_vehicle_id other_actor_id : Nat)
    (geometry_cache : GeomCache) (geodesic_boundary_map : NMap (List V3))
    (collision_locks : NMap CollisionLock)
    (reference_vehicle_state other_vehicle_state : KinematicState)
    (reference_vehicle_attributes other_vehicle_attributes : StaticAttributes)
    (reference_tl_state : TrafficLightState)
    (reference_vehicle_buffer other_vehicle_buffer : List Waypoint)
    (reference_junction_look_ahead_index : Nat)
    (reference_lead_distance other_lead_distance : ℚ) (res : NegOut)
    (hres : NegotiateCollision o reference_vehicle_id other_actor_id
      geometry_cache geodesic_boundary_map collision_locks
      reference_vehicle_state other_vehicle_state reference_vehicle_attributes
      other_vehicle_attributes reference_tl_state reference_vehicle_buffer
      other_vehicle_buffer reference_junction_look_ahead_index
      reference_lead_distance other_lead_distance = some res) :
    (res.collision_locks reference_vehicle_id).isSome = res.hazard :=
  negotiate_locks_iff o reference_vehicle_id other_actor_id geometry_cache
    geodesic_boundary_map collision_locks reference_vehicle_state
    other_vehicle_state reference_vehicle_attributes other_vehicle_attributes
    reference_tl_state reference_vehicle_buffer other_vehicle_buffer
    reference_junction_look_ahead_index reference_lead_distance
    other_lead_distance res hres

unseal Rat.add Rat.sub Rat.mul Rat.inv in
/-- Witness for the amended C3 at a concrete hazard-producing call. -/
theorem C3_lock_iff_negotiation_witness :
    (NegotiateCollision oracleTouch 7 8 emptyCache emptyGB noLocks ksO ksFive
      vehAttr vehAttr tlGreen [wpO] [wpFive] 0 2 2).map
        (fun r => ((r.collision_locks 7).isSome, r.hazard)) =
      some (true, true) := by
  cases hres : NegotiateCollision oracleTouch 7 8 emptyCache emptyGB noLocks
      ksO ksFive vehAttr vehAttr tlGreen [wpO] [wpFive] 0 2 2 with
  | none =>
      have hs : (NegotiateCollision oracleTouch 7 8 emptyCache emptyGB noLocks
        ksO ksFive vehAttr vehAttr tlGreen [wpO] [wpFive] 0 2 2).isSome = true := by
        decide
      rw [hres] at hs
      cases hs
  | some res =>
      have h := C3_lock_iff_negotiation oracleTouch 7 8 emptyCache emptyGB
        noLocks ksO ksFive vehAttr vehAttr tlGreen [wpO] [wpFive] 0 2 2 res hres
      have hh : res.hazard = true := by
        have hmap : (NegotiateCollision oracleTouch 7 8 emptyCache emptyGB
          noLocks ksO ksFive vehAttr vehAttr tlGreen [wpO] [wpFive] 0 2 2).map
            (·.hazard) = some true := by decide
        rw [hres] at hmap
        simpa using hmap
      simp [h, hh]

end CarlaTM
namespace CarlaTM

/-- C5: the geometric evaluation gate of `NegotiateCollision` holds iff
NOT (junction-entrance ∧ at-light ∧ stopped-by-light) AND ((inside junction
∧ d² < cross_range) OR (not inside ∧ other in front ∧ d² < ego_range)),
with both ranges built from the bounding-box extensions and the √2-scaled
half lengths; when the gate fails the call returns hazard=false with margin
`+∞` (flushing any lock) and leaves both per-tick caches untouched. -/
theorem C5_gate_characterization (o : GeomOracle)
    (reference_vehicle_id other_actor_id : Nat)
    (geometry_cache : GeomCache) (geodesic_boundary_map : NMap (List V3))
    (collision_locks : NMap CollisionLock)
    (reference_vehicle_state other_vehicle_state : KinematicState)
    (reference_vehicle_attributes other_vehicle_attributes : StaticAttributes)
    (reference_tl_state : TrafficLightState)
    (reference_vehicle_buffer other_vehicle_buffer : List Waypoint)
    (reference_junction_look_ahead_index : Nat)
    (reference_lead_distance other_lead_distance : ℚ)
    (closest_point look_ahead_point : Waypoint)
    (hcp : reference_vehicle_buffer.head? = some closest_point)
    (hlp : reference_vehicle_buffer.get? reference_junction_look_ahead_index =
      some look_ahead_point) :
    (negotiateGate reference_vehicle_state other_vehicle_state
      reference_vehicle_attributes other_vehicle_attributes reference_tl_state
      reference_vehicle_id other_actor_id collision_locks o closest_point
      look_ahead_point = true ↔
      (¬ ((closest_point.junction = false ∧ look_ahead_point.junction = true) ∧
          reference_tl_state.at_traffic_light = true ∧
          reference_tl_state.tl_state ≠ TLS.Green) ∧
        ((closest_point.junction = true ∧
           V3.distSq reference_vehicle_state.location other_vehicle_state.location <
             (GetBoundingBoxExtention reference_vehicle_id reference_vehicle_state
                collision_locks +
              (reference_vehicle_attributes.half_length * SQUARE_ROOT_OF_TWO +
               other_vehicle_attributes.half_length * SQUARE_ROOT_OF_TWO) +
              GetBoundingBoxExtention other_actor_id other_vehicle_state
                collision_locks) *
             (GetBoundingBoxExtention reference_vehicle_id reference_vehicle_state
                collision_locks +
              (reference_vehicle_attributes.half_length * SQUARE_ROOT_OF_TWO +
               other_vehicle_attributes.half_length * SQUARE_ROOT_OF_TWO) +
              GetBoundingBoxExtention other_actor_id other_vehicle_state
                collision_locks)) ∨
         (closest_point.junction = false ∧
           V3.dot reference_vehicle_state.rotation.fwd
             (refToOtherUnit o reference_vehicle_state.location
               other_vehicle_state.location) > 0 ∧
           V3.distSq reference_vehicle_state.location other_vehicle_state.location <
             (GetBoundingBoxExtention reference_vehicle_id reference_vehicle_state
                collision_locks +
              (reference_vehicle_attributes.half_length * SQUARE_ROOT_OF_TWO +
               other_vehicle_attributes.half_length * SQUARE_ROOT_OF_TWO)) *
             (GetBoundingBoxExtention reference_vehicle_id reference_vehicle_state
                collision_locks +
              (reference_vehicle_attributes.half_length * SQUARE_ROOT_OF_TWO +
               other_vehicle_attributes.half_length * SQUARE_ROOT_OF_TWO)))))) ∧
    (negotiateGate reference_vehicle_state other_vehicle_state
      reference_vehicle_attributes other_vehicle_attributes reference_tl_state
      reference_vehicle_id other_actor_id collision_locks o closest_point
      look_ahead_point = false →
      NegotiateCollision o reference_vehicle_id other_actor_id geometry_cache
        geodesic_boundary_map collision_locks reference_vehicle_state
        other_vehicle_state reference_vehicle_attributes
        other_vehicle_attributes reference_tl_state reference_vehicle_buffer
        other_vehicle_buffer reference_junction_look_ahead_index
        reference_lead_distance other_lead_distance =
      some ⟨false, Marg.inf, collision_locks.del reference_vehicle_id,
            geometry_cache, geodesic_boundary_map⟩) :=
  ⟨negotiateGate_eq_true_iff reference_vehicle_state other_vehicle_state
      reference_vehicle_attributes other_vehicle_attributes reference_tl_state
      reference_vehicle_id other_actor_id collision_locks o closest_point
      look_ahead_point,
   fun hgf => negotiate_gate_false o reference_vehicle_id other_actor_id
      geometry_cache geodesic_boundary_map collision_locks
      reference_vehicle_state other_vehicle_state reference_vehicle_attributes
      other_vehicle_attributes reference_tl_state reference_vehicle_buffer
      other_vehicle_buffer reference_junction_look_ahead_index
      reference_lead_distance other_lead_distance closest_point
      look_ahead_point hcp hlp hgf⟩

/-- Stationary vehicle state behind the ego, at (−5,0,0) facing +x. -/
def ksBehind : KinematicState := ⟨⟨-5, 0, 0⟩, rotPX, ⟨0, 0, 0⟩, true⟩

/-- A non-junction waypoint at (−5,0,0) facing +x. -/
def wpBehind : Waypoint := ⟨⟨⟨-5, 0, 0⟩, rotPX⟩, false⟩

unseal Rat.add Rat.sub Rat.mul Rat.inv in
/-- Witness for C5: the other vehicle is behind the ego, the gate fails,
and the call returns no-hazard with infinite margin. -/
theorem C5_gate_characterization_witness :
    negotiateGate ksO ksBehind vehAttr vehAttr tlGreen 7 8 noLocks oracleTouch
      wpO wpO = false ∧
    (NegotiateCollision oracleTouch 7 8 emptyCache emptyGB noLocks ksO ksBehind
      vehAttr vehAttr tlGreen [wpO] [wpBehind] 0 2 2).map
        (fun r => (r.hazard, r.available_distance_margin)) =
      some (false, Marg.inf) := by
  have hgf : negotiateGate ksO ksBehind vehAttr vehAttr tlGreen 7 8 noLocks
      oracleTouch wpO wpO = false := by decide
  have h := (C5_gate_characterization oracleTouch 7 8 emptyCache emptyGB
    noLocks ksO ksBehind vehAttr vehAttr tlGreen [wpO] [wpBehind] 0 2 2
    wpO wpO rfl rfl).2 hgf
  exact ⟨hgf, by rw [h]; rfl⟩

end CarlaTM
namespace CarlaTM

/-- Margin discipline of the candidate loop: a committed hazard carries a
finite non-negative margin; otherwise the margin is `+∞`. -/
theorem caLoop_margin (o : GeomOracle) (p : SimParameters) (randf : Nat → Nat)
    (state_map : NMap KinematicState) (attribute_map : NMap StaticAttributes)
    (tl_state_map : NMap TrafficLightState) (buffer_map : NMap (List Waypoint))
    (ego_actor_id : Nat) (ego_kinematic_state : KinematicState)
    (ego_attributes : StaticAttributes) (look_ahead_index : Nat)
    (reference_lead_distance : ℚ) :
    ∀ (cands : List Nat) (locks : NMap CollisionLock) (cache : GeomCache)
      (gbm : NMap (List V3)) (k : Nat) (hz : Bool) (m : Marg) (obst : Nat)
      (locks' : NMap CollisionLock) (k' : Nat),
      caLoop o p randf state_map attribute_map tl_state_map buffer_map
        ego_actor_id ego_kinematic_state ego_attributes look_ahead_index
        reference_lead_distance cands locks cache gbm k =
        some (hz, m, obst, locks', k') →
      (hz = false → m = Marg.inf) ∧ (hz = true → ∃ q, m = Marg.val q ∧ 0 ≤ q) := by
  intro cands
  induction cands with
  | nil =>
      intro locks cache gbm k hz m obst locks' k' h
      unfold caLoop at h
      simp only [Option.some.injEq, Prod.mk.injEq] at h
      obtain ⟨h1, h2, -, -, -⟩ := h
      subst h1
      subst h2
      exact ⟨fun _ => rfl, fun ht => by cases ht⟩
  | cons c rest ih =>
      intro locks cache gbm k hz m obst locks' k' h
      unfold caLoop at h
      cases ht : GetType attribute_map c with
      | none => rw [ht] at h; cases h
      | some other_actor_type =>
      rw [ht] at h
      cases hs : state_map c with
      | none => rw [hs] at h; cases h
      | some other_kinematic_state =>
      rw [hs] at h
      cases ha : attribute_map c with
      | none => rw [ha] at h; cases h
      | some other_attributes =>
      rw [ha] at h
      dsimp only [bind, Option.bind] at h
      split at h
      · cases htl : tl_state_map ego_actor_id with
        | none =>
            rw [htl] at h
            exact ih locks cache gbm k hz m obst locks' k' h
        | some reference_tl_state =>
        rw [htl] at h
        cases hbe : buffer_map ego_actor_id with
        | none =>
            rw [hbe] at h
            exact ih locks cache gbm k hz m obst locks' k' h
        | some ego_buffer =>
        rw [hbe] at h
        cases hbc : buffer_map c with
        | none =>
            rw [hbc] at h
            exact ih locks cache gbm k hz m obst locks' k' h
        | some other_buffer =>
        rw [hbc] at h
        dsimp only at h
        cases hneg : NegotiateCollision o ego_actor_id c cache gbm locks
            ego_kinematic_state other_kinematic_state ego_attributes
            other_attributes reference_tl_state ego_buffer other_buffer
            look_ahead_index reference_lead_distance
            (p.distance_to_leading c) with
        | none => rw [hneg] at h; cases h
        | some neg =>
        rw [hneg] at h
        dsimp only at h
        split at h
        case isTrue hhaz =>
          split at h
          case isTrue hcommit =>
            have h12 : hz = true ∧ m = neg.available_distance_margin := by
              simp only [Option.some.injEq, Prod.mk.injEq] at h
              tauto
            obtain ⟨hz1, hm1⟩ := h12
            subst hz1
            constructor
            · intro hf; cases hf
            · intro _
              have hm := (negotiate_margin o ego_actor_id c cache gbm locks
                ego_kinematic_state other_kinematic_state ego_attributes
                other_attributes reference_tl_state ego_buffer other_buffer
                look_ahead_index reference_lead_distance
                (p.distance_to_leading c) neg hneg).2 hhaz
              obtain ⟨g, -, hmm, hpos⟩ := hm
              exact ⟨_, hm1.trans hmm, hpos⟩
          case isFalse hcommit => exact ih _ _ _ _ hz m obst locks' k' h
        case isFalse hhaz => exact ih _ _ _ _ hz m obst locks' k' h
      · exact ih locks cache gbm k hz m obst locks' k' h

end CarlaTM
namespace CarlaTM

/-- Margin discipline of the collision-avoidance driver: the written record
has `+∞` margin when no hazard is committed, and a finite non-negative
margin when one is. -/
theorem collisionAvoidance_margin (o : GeomOracle) (p : SimParameters)
    (randf : Nat → Nat) (rand0 index : Nat) (vehicle_id_list : List Nat)
    (state_map : NMap KinematicState) (attribute_map : NMap StaticAttributes)
    (tl_state_map : NMap TrafficLightState) (buffer_map : NMap (List Waypoint))
    (overlapping : Nat → List Nat) (collision_locks : NMap CollisionLock)
    (out : CollisionHazardData) (locks' : NMap CollisionLock) (k' : Nat)
    (h : CollisionAvoidance o p randf rand0 index vehicle_id_list state_map
      attribute_map tl_state_map buffer_map overlapping collision_locks =
      some (out, locks', k')) :
    (out.hazard = false → out.available_distance_margin = Marg.inf) ∧
    (out.hazard = true →
      ∃ q, out.available_distance_margin = Marg.val q ∧ 0 ≤ q) := by
  unfold CollisionAvoidance at h
  cases hid : vehicle_id_list.get? index with
  | none => rw [hid] at h; cases h
  | some ego_actor_id =>
  rw [hid] at h
  dsimp only at h
  cases hs : state_map ego_actor_id with
  | none =>
      rw [hs] at h
      dsimp only at h
      simp only [Option.some.injEq, Prod.mk.injEq] at h
      obtain ⟨h1, -, -⟩ := h
      subst h1
      exact ⟨fun _ => rfl, fun ht => by cases ht⟩
  | some ego_kinematic_state =>
  rw [hs] at h
  cases ha : attribute_map ego_actor_id with
  | none =>
      rw [ha] at h
      dsimp only at h
      simp only [Option.some.injEq, Prod.mk.injEq] at h
      obtain ⟨h1, -, -⟩ := h
      subst h1
      exact ⟨fun _ => rfl, fun ht => by cases ht⟩
  | some ego_attributes =>
  rw [ha] at h
  dsimp only at h
  cases hb : buffer_map ego_actor_id with
  | none => rw [hb] at h; cases h
  | some ego_buffer =>
  rw [hb] at h
  dsimp only at h
  cases htw : GetTargetWaypoint o ego_buffer JUNCTION_LOOK_AHEAD with
  | none => rw [htw] at h; cases h
  | some tw =>
  rw [htw] at h
  obtain ⟨tw1, look_ahead_index⟩ := tw
  dsimp only at h
  cases hcc : collectCandidates state_map ego_actor_id
      ego_kinematic_state.location (overlapping ego_actor_id) with
  | none => rw [hcc] at h; cases h
  | some candidates =>
  rw [hcc] at h
  dsimp only at h
  cases hloop : caLoop o p randf state_map attribute_map tl_state_map
      buffer_map ego_actor_id ego_kinematic_state ego_attributes
      look_ahead_index (p.distance_to_leading ego_actor_id)
      (sortByDistance state_map ego_kinematic_state.location candidates)
      collision_locks (fun _ => none) (fun _ => none) rand0 with
  | none => rw [hloop] at h; cases h
  | some r =>
  obtain ⟨hz, m, obst, l2, k2⟩ := r
  rw [hloop] at h
  dsimp only at h
  simp only [Option.some.injEq, Prod.mk.injEq] at h
  obtain ⟨h1, -, -⟩ := h
  have hmargin := caLoop_margin o p randf state_map attribute_map tl_state_map
    buffer_map ego_actor_id ego_kinematic_state ego_attributes look_ahead_index
    (p.distance_to_leading ego_actor_id)
    (sortByDistance state_map ego_kinematic_state.location candidates)
    collision_locks (fun _ => none) (fun _ => none) rand0 hz m obst l2 k2 hloop
  rw [← h1]
  exact hmargin

end CarlaTM
namespace CarlaTM

/-- C6: when `NegotiateCollision` reports a hazard the returned margin is
exactly `max(ref_to_other_geodesic − max(lead_distance,
BOUNDARY_EXTENSION_MINIMUM), 0)`, a finite non-negative value, and when it
reports no hazard the margin is `+∞`; the `CollisionHazardData` record
written by the `CollisionAvoidance` driver obeys the same discipline
(finite non-negative margin iff `hazard=true`, else `+∞`). -/
theorem C6_margin_formula :
    (∀ (o : GeomOracle) (reference_vehicle_id other_actor_id : Nat)
      (geometry_cache : GeomCache) (geodesic_boundary_map : NMap (List V3))
      (collision_locks : NMap CollisionLock)
      (reference_vehicle_state other_vehicle_state : KinematicState)
      (reference_vehicle_attributes other_vehicle_attributes : StaticAttributes)
      (reference_tl_state : TrafficLightState)
      (reference_vehicle_buffer other_vehicle_buffer : List Waypoint)
      (reference_junction_look_ahead_index : Nat)
      (reference_lead_distance other_lead_distance : ℚ) (res : NegOut),
      NegotiateCollision o reference_vehicle_id other_actor_id geometry_cache
        geodesic_boundary_map collision_locks reference_vehicle_state
        other_vehicle_state reference_vehicle_attributes
        other_vehicle_attributes reference_tl_state reference_vehicle_buffer
        other_vehicle_buffer reference_junction_look_ahead_index
        reference_lead_distance other_lead_distance = some res →
      (res.hazard = false → res.available_distance_margin = Marg.inf) ∧
      (res.hazard = true → ∃ g : GeometryComparison,
        (GetGeometryBetweenActors o geometry_cache geodesic_boundary_map
          reference_vehicle_id other_actor_id reference_vehicle_state
          other_vehicle_state reference_vehicle_attributes
          other_vehicle_attributes reference_vehicle_buffer
          other_vehicle_buffer collision_locks reference_lead_distance
          other_lead_distance).map (·.1) = some g ∧
        res.available_distance_margin =
          Marg.val (max (g.reference_vehicle_to_other_geodesic -
            max reference_lead_distance BOUNDARY_EXTENSION_MINIMUM) 0) ∧
        0 ≤ max (g.reference_vehicle_to_other_geodesic -
            max reference_lead_distance BOUNDARY_EXTENSION_MINIMUM) (0 : ℚ))) ∧
    (∀ (o : GeomOracle) (p : SimParameters) (randf : Nat → Nat)
      (rand0 index : Nat) (vehicle_id_list : List Nat)
      (state_map : NMap KinematicState) (attribute_map : NMap StaticAttributes)
      (tl_state_map : NMap TrafficLightState)
      (buffer_map : NMap (List Waypoint)) (overlapping : Nat → List Nat)
      (collision_locks : NMap CollisionLock) (out : CollisionHazardData)
      (locks' : NMap CollisionLock) (k' : Nat),
      CollisionAvoidance o p randf rand0 index vehicle_id_list state_map
        attribute_map tl_state_map buffer_map overlapping collision_locks =
        some (out, locks', k') →
      (out.hazard = false → out.available_distance_margin = Marg.inf) ∧
      (out.hazard = true →
        ∃ q, out.available_distance_margin = Marg.val q ∧ 0 ≤ q)) :=
  ⟨fun o rid oid gc gbm cl rs os ra oa rtl rb ob rli rld old res h =>
      negotiate_margin o rid oid gc gbm cl rs os ra oa rtl rb ob rli rld old
        res h,
   fun o p randf rand0 index ids sm am tlm bm ov cl out locks' k' h =>
      collisionAvoidance_margin o p randf rand0 index ids sm am tlm bm ov cl
        out locks' k' h⟩

end CarlaTM
namespace CarlaTM

unseal Rat.add Rat.sub Rat.mul Rat.inv in
/-- Witness for C6 at concrete hazard-producing runs of both the negotiator
and the driver. -/
theorem C6_margin_formula_witness :
    (NegotiateCollision oracleTouch 7 8 emptyCache emptyGB noLocks ksO ksFive
      vehAttr vehAttr tlGreen [wpO] [wpFive] 0 2 2).map
        (·.available_distance_margin) = some (Marg.val 0) ∧
    (CollisionAvoidance oracleTouch pTest (fun _ => 0) 0 0 [7]
      (NMap.upd (NMap.upd NMap.empty 7 ksO) 8 ksFive)
      (NMap.upd (NMap.upd NMap.empty 7 vehAttr) 8 vehAttr)
      (NMap.upd NMap.empty 7 tlGreen)
      (NMap.upd (NMap.upd NMap.empty 7 [wpO]) 8 [wpFive])
      (fun _ => [8]) noLocks).map
        (fun r => r.1.available_distance_margin) = some (Marg.val 0) ∧
    (0 : ℚ) ≤ 0 := by
  refine ⟨?_, by decide, ?_⟩
  · cases hres : NegotiateCollision oracleTouch 7 8 emptyCache emptyGB noLocks
        ksO ksFive vehAttr vehAttr tlGreen [wpO] [wpFive] 0 2 2 with
    | none =>
        have hs : (NegotiateCollision oracleTouch 7 8 emptyCache emptyGB
          noLocks ksO ksFive vehAttr vehAttr tlGreen [wpO] [wpFive] 0 2
          2).isSome = true := by decide
        rw [hres] at hs
        cases hs
    | some res =>
        have hh : res.hazard = true := by
          have hmap : (NegotiateCollision oracleTouch 7 8 emptyCache emptyGB
            noLocks ksO ksFive vehAttr vehAttr tlGreen [wpO] [wpFive] 0 2
            2).map (·.hazard) = some true := by decide
          rw [hres] at hmap
          simpa using hmap
        obtain ⟨g, hgproj, hmm, -⟩ :=
          (C6_margin_formula.1 oracleTouch 7 8 emptyCache emptyGB noLocks ksO
            ksFive vehAttr vehAttr tlGreen [wpO] [wpFive] 0 2 2 res hres).2 hh
        have hgc : (GetGeometryBetweenActors oracleTouch emptyCache emptyGB 7 8
            ksO ksFive vehAttr vehAttr [wpO] [wpFive] noLocks 2 2).map (·.1) =
            some ⟨0, 0, 0, 0⟩ := by decide
        rw [hgproj] at hgc
        have hg0 : g = ⟨0, 0, 0, 0⟩ := by simpa using hgc
        subst hg0
        have hv : Marg.val (max ((0 : ℚ) -
            max (2 : ℚ) BOUNDARY_EXTENSION_MINIMUM) 0) = Marg.val 0 := by
          decide
        simp only [Option.map_some']
        rw [hmm, hv]
  · have hca : (CollisionAvoidance oracleTouch pTest (fun _ => 0) 0 0 [7]
      (NMap.upd (NMap.upd NMap.empty 7 ksO) 8 ksFive)
      (NMap.upd (NMap.upd NMap.empty 7 vehAttr) 8 vehAttr)
      (NMap.upd NMap.empty 7 tlGreen)
      (NMap.upd (NMap.upd NMap.empty 7 [wpO]) 8 [wpFive])
      (fun _ => [8]) noLocks).isSome = true := by decide
    cases hres : CollisionAvoidance oracleTouch pTest (fun _ => 0) 0 0 [7]
        (NMap.upd (NMap.upd NMap.empty 7 ksO) 8 ksFive)
        (NMap.upd (NMap.upd NMap.empty 7 vehAttr) 8 vehAttr)
        (NMap.upd NMap.empty 7 tlGreen)
        (NMap.upd (NMap.upd NMap.empty 7 [wpO]) 8 [wpFive])
        (fun _ => [8]) noLocks with
    | none => rw [hres] at hca
    | some r =>
        obtain ⟨out, l2, k2⟩ := r
        have hh : out.hazard = true := by
          have hmap : (CollisionAvoidance oracleTouch pTest (fun _ => 0) 0 0 [7]
            (NMap.upd (NMap.upd NMap.empty 7 ksO) 8 ksFive)
            (NMap.upd (NMap.upd NMap.empty 7 vehAttr) 8 vehAttr)
            (NMap.upd NMap.empty 7 tlGreen)
            (NMap.upd (NMap.upd NMap.empty 7 [wpO]) 8 [wpFive])
            (fun _ => [8]) noLocks).map (fun r => r.1.hazard) = some true := by
            decide
          rw [hres] at hmap
          simpa using hmap
        obtain ⟨q, hq, hq0⟩ :=
          (C6_margin_formula.2 oracleTouch pTest (fun _ => 0) 0 0 [7]
            (NMap.upd (NMap.upd NMap.empty 7 ksO) 8 ksFive)
            (NMap.upd (NMap.upd NMap.empty 7 vehAttr) 8 vehAttr)
            (NMap.upd NMap.empty 7 tlGreen)
            (NMap.upd (NMap.upd NMap.empty 7 [wpO]) 8 [wpFive])
            (fun _ => [8]) noLocks out l2 k2 hres).2 hh
        have hout : out.available_distance_margin = Marg.val 0 := by
          have hmap0 : (CollisionAvoidance oracleTouch pTest (fun _ => 0) 0 0
            [7] (NMap.upd (NMap.upd NMap.empty 7 ksO) 8 ksFive)
            (NMap.upd (NMap.upd NMap.empty 7 vehAttr) 8 vehAttr)
            (NMap.upd NMap.empty 7 tlGreen)
            (NMap.upd (NMap.upd NMap.empty 7 [wpO]) 8 [wpFive])
            (fun _ => [8]) noLocks).map
              (fun r => r.1.available_distance_margin) = some (Marg.val 0) := by
            decide
          rw [hres] at hmap0
          simpa using hmap0
        have hq2 : (0 : ℚ) = q := by injection hout.symm.trans hq
        exact le_of_le_of_eq hq0 hq2.symm

end CarlaTM
namespace CarlaTM

/-- C8 counterexample: ego 7 is scheduled and present in the state and
attribute maps but missing from the buffer map.  The driver does *not*
skip it silently: the unguarded `buffer_map->at(ego)` of source line 126
raises, modelled as `none`, and no record is written. -/
theorem C8_counterexample_missing_buffer :
    (NMap.upd NMap.empty 7 ksO : NMap KinematicState) 7 = some ksO ∧
    (NMap.upd NMap.empty 7 vehAttr : NMap StaticAttributes) 7 = some vehAttr ∧
    CollisionAvoidance oracleTouch pTest (fun _ => 0) 0 0 [7]
      (NMap.upd NMap.empty 7 ksO) (NMap.upd NMap.empty 7 vehAttr)
      (NMap.upd NMap.empty 7 tlGreen) NMap.empty (fun _ => []) noLocks =
      none :=
  ⟨rfl, rfl, rfl⟩

/-- C8 (amended): a missing *state or attribute* entry for a scheduled ego
makes the driver skip the ego silently, writing the no-hazard record and
leaving the lock map and the random stream untouched.  (A missing buffer
entry with state and attributes present instead raises out-of-range, see
the counterexample.) -/
theorem C8_missing_state_or_attributes (o : GeomOracle) (p : SimParameters)
    (randf : Nat → Nat) (rand0 index : Nat) (vehicle_id_list : List Nat)
    (state_map : NMap KinematicState) (attribute_map : NMap StaticAttributes)
    (tl_state_map : NMap TrafficLightState) (buffer_map : NMap (List Waypoint))
    (overlapping : Nat → List Nat) (collision_locks : NMap CollisionLock)
    (ego_actor_id : Nat)
    (hid : vehicle_id_list.get? index = some ego_actor_id)
    (hmiss : state_map ego_actor_id = none ∨ attribute_map ego_actor_id = none) :
    CollisionAvoidance o p randf rand0 index vehicle_id_list state_map
      attribute_map tl_state_map buffer_map overlapping collision_locks =
      some (⟨0, false, Marg.inf⟩, collision_locks, rand0) := by
  unfold CollisionAvoidance
  rw [hid]
  dsimp only
  rcases hmiss with hm | hm
  · rw [hm]
  · cases hs : state_map ego_actor_id with
    | none => rfl
    | some ego_kinematic_state => rw [hm]

unseal Rat.add Rat.sub Rat.mul Rat.inv in
/-- Witness for the amended C8: ego 9 is scheduled but has no kinematic
state; the driver writes the no-hazard record. -/
theorem C8_missing_state_or_attributes_witness :
    (NMap.empty : NMap KinematicState) 9 = none ∧
    (CollisionAvoidance oracleTouch pTest (fun _ => 0) 0 0 [9] NMap.empty
      (NMap.upd NMap.empty 9 vehAttr) (NMap.upd NMap.empty 9 tlGreen)
      (NMap.upd NMap.empty 9 [wpO]) (fun _ => []) noLocks).map (·.1) =
      some ⟨0, false, Marg.inf⟩ := by
  have h := C8_missing_state_or_attributes oracleTouch pTest (fun _ => 0) 0 0
    [9] NMap.empty (NMap.upd NMap.empty 9 vehAttr)
    (NMap.upd NMap.empty 9 tlGreen) (NMap.upd NMap.empty 9 [wpO])
    (fun _ => []) noLocks 9 rfl (Or.inl rfl)
  exact ⟨rfl, by rw [h]; rfl⟩

end CarlaTM
namespace CarlaTM

/-- Brake and throttle of a command, when it is a vehicle control at all. -/
def Command.brakeThrottle : Command → Option (ℚ × ℚ)
  | Command.applyVehicleControl _ sig => some (sig.brake, sig.throttle)
  | Command.applyTransform _ _ => none

/-- A collision frame entry with `hazard=true` and margin below
`CRITICAL_BRAKING_MARGIN` forces the emergency-stop flag. -/
theorem collisionHandling_emergency (o : GeomOracle)
    (collision_hazard : CollisionHazardData) (state_map : NMap KinematicState)
    (ego_velocity ego_heading : V3) (max_target_velocity : ℚ)
    (ces : Bool) (dtv : ℚ)
    (h : collisionHandling o collision_hazard state_map ego_velocity
      ego_heading max_target_velocity = some (ces, dtv))
    (hhaz : collision_hazard.hazard = true)
    (hm : collision_hazard.available_distance_margin.ltQ
      CRITICAL_BRAKING_MARGIN = true) : ces = true := by
  unfold collisionHandling at h
  rw [hhaz] at h
  simp only [if_true] at h
  cases hs : state_map collision_hazard.hazard_actor_id with
  | none => rw [hs] at h; cases h
  | some other_kinematic_state =>
      rw [hs] at h
      dsimp only at h
      simp only [Option.some.injEq, Prod.mk.injEq] at h
      obtain ⟨h1, -⟩ := h
      rw [← h1, hm, Bool.or_true]

end CarlaTM
namespace CarlaTM

/-- C7 (amended): for a *physics-enabled* ego, if the traffic-light hazard
flag is set, or the collision frame entry reports `hazard=true` with a
margin below `CRITICAL_BRAKING_MARGIN`, then the issued command is a
vehicle control with `brake=1` and `throttle=0`, and the persisted
`StateEntry` has both integrals reset to zero.  (The unrestricted claim
fails: physics-less egos receive a teleport command with no brake at all,
and a frame with `hazard=false` never triggers the braking branch even
when its margin is below the critical threshold — see the counterexample.) -/
theorem C7_emergency_braking (o : GeomOracle) (p : SimParameters)
    (current_time : ℚ) (index : Nat) (vehicle_id_list : List Nat)
    (state_map : NMap KinematicState) (attribute_map : NMap StaticAttributes)
    (buffer_map : NMap (List Waypoint))
    (urban_longitudinal highway_longitudinal urban_lateral highway_lateral : List ℚ)
    (collision_frame : List CollisionHazardData) (tl_frame : List Bool)
    (pid_state_map : NMap StateEntry) (teleportation_instance : NMap ℚ)
    (actor_id : Nat) (ks : KinematicState) (chd : CollisionHazardData)
    (tlh : Bool) (res : MPOut)
    (hid : vehicle_id_list.get? index = some actor_id)
    (hks : state_map actor_id = some ks)
    (hphys : ks.physics_enabled = true)
    (hch : collision_frame.get? index = some chd)
    (htl : tl_frame.get? index = some tlh)
    (hstop : tlh = true ∨ (chd.hazard = true ∧
      chd.available_distance_margin.ltQ CRITICAL_BRAKING_MARGIN = true))
    (hres : MotionPlan o p current_time index vehicle_id_list state_map
      attribute_map buffer_map urban_longitudinal highway_longitudinal
      urban_lateral highway_lateral collision_frame tl_frame pid_state_map
      teleportation_instance = some res) :
    res.command.brakeThrottle = some (1, 0) ∧
    (res.pid_state_map actor_id).map
      (fun se => (se.deviation_integral, se.velocity_integral)) =
      some (0, 0) := by
  unfold MotionPlan at hres
  rw [hid] at hres
  dsimp only [bind, Option.bind] at hres
  rw [hks] at hres
  dsimp only [bind, Option.bind] at hres
  cases hb : buffer_map actor_id with
  | none => rw [hb] at hres; cases hres
  | some waypoint_buffer =>
  rw [hb] at hres
  dsimp only [bind, Option.bind] at hres
  rw [hch] at hres
  dsimp only [bind, Option.bind] at hres
  rw [htl] at hres
  dsimp only [bind, Option.bind] at hres
  cases htw : GetTargetWaypoint o waypoint_buffer
      (max (vecLen o ks.velocity * TARGET_WAYPOINT_TIME_HORIZON)
        TARGET_WAYPOINT_HORIZON_LENGTH) with
  | none => rw [htw] at hres; cases hres
  | some tw =>
  rw [htw] at hres
  dsimp only [bind, Option.bind] at hres
  cases hattr : attribute_map actor_id with
  | none => rw [hattr] at hres; cases hres
  | some ego_attributes =>
  rw [hattr] at hres
  dsimp only [bind, Option.bind] at hres
  cases hchh : collisionHandling o chd state_map ks.velocity ks.rotation.fwd
      (p.target_velocity actor_id ego_attributes.speed_limit * (5/18)) with
  | none => rw [hchh] at hres; cases hres
  | some ch =>
  obtain ⟨ces, dtv⟩ := ch
  rw [hchh] at hres
  dsimp only [bind, Option.bind] at hres
  have hes : (tlh || ces) = true := by
    rcases hstop with h1 | ⟨h2, h3⟩
    · rw [h1, Bool.true_or]
    · rw [collisionHandling_emergency o chd state_map ks.velocity
        ks.rotation.fwd (p.target_velocity actor_id ego_attributes.speed_limit
          * (5/18)) ces dtv hchh h2 h3, Bool.or_true]
  rw [hphys] at hres
  simp only [hes, if_true] at hres
  simp only [Option.some.injEq] at hres
  subst hres
  constructor
  · rfl
  · simp [NMap.upd]

end CarlaTM
namespace CarlaTM

unseal Rat.add Rat.sub Rat.mul Rat.inv in
/-- C7 counterexample.  First run: a physics-less ego with `tl_hazard=true`
receives an `ApplyTransform` command — no brake or throttle exists at all.
Second run: a physics-enabled ego whose collision frame has `hazard=false`
but margin `0 < CRITICAL_BRAKING_MARGIN` (the claim's antecedent) gets
brake `0`, not `1`, because the braking branch is only reachable under
`hazard=true`. -/
theorem C7_counterexample_no_braking :
    (MotionPlan oracleTouch pTest 1 0 [7] (NMap.upd NMap.empty 7 ksONoPhys)
      (NMap.upd NMap.empty 7 vehAttr) (NMap.upd NMap.empty 7 [wpTen])
      [0, 0, 0] [0, 0, 0] [0, 0, 0] [0, 0, 0] [chdClear] [true] NMap.empty
      (NMap.upd NMap.empty 7 0)).map (fun r => r.command.brakeThrottle) =
      some none ∧
    (MotionPlan oracleTouch pTest 1 0 [7] (NMap.upd NMap.empty 7 ksO)
      (NMap.upd NMap.empty 7 vehAttr) (NMap.upd NMap.empty 7 [wpTen])
      [0, 0, 0] [0, 0, 0] [0, 0, 0] [0, 0, 0] [⟨1, false, Marg.val 0⟩]
      [false] NMap.empty NMap.empty).map
        (fun r => r.command.brakeThrottle) = some (some (0, 0)) ∧
    (Marg.val 0).ltQ CRITICAL_BRAKING_MARGIN = true ∧
    ((0 : ℚ), (0 : ℚ)) ≠ ((1 : ℚ), (0 : ℚ)) := by
  refine ⟨by decide, by decide, by decide, by decide⟩

unseal Rat.add Rat.sub Rat.mul Rat.inv in
/-- Witness for the amended C7: a physics-enabled ego facing a red-light
hazard brakes fully and has its integrals reset. -/
theorem C7_emergency_braking_witness :
    (MotionPlan oracleTouch pTest 1 0 [7] (NMap.upd NMap.empty 7 ksO)
      (NMap.upd NMap.empty 7 vehAttr) (NMap.upd NMap.empty 7 [wpTen])
      [0, 0, 0] [0, 0, 0] [0, 0, 0] [0, 0, 0] [chdClear] [true] NMap.empty
      NMap.empty).map (fun r => (r.command.brakeThrottle,
        (r.pid_state_map 7).map
          (fun se => (se.deviation_integral, se.velocity_integral)))) =
      some (some (1, 0), some (0, 0)) := by
  cases hres : MotionPlan oracleTouch pTest 1 0 [7] (NMap.upd NMap.empty 7 ksO)
      (NMap.upd NMap.empty 7 vehAttr) (NMap.upd NMap.empty 7 [wpTen])
      [0, 0, 0] [0, 0, 0] [0, 0, 0] [0, 0, 0] [chdClear] [true] NMap.empty
      NMap.empty with
  | none =>
      have hs : (MotionPlan oracleTouch pTest 1 0 [7]
        (NMap.upd NMap.empty 7 ksO) (NMap.upd NMap.empty 7 vehAttr)
        (NMap.upd NMap.empty 7 [wpTen]) [0, 0, 0] [0, 0, 0] [0, 0, 0]
        [0, 0, 0] [chdClear] [true] NMap.empty NMap.empty).isSome = true := by
        decide
      rw [hres] at hs
      cases hs
  | some res =>
      have h := C7_emergency_braking oracleTouch pTest 1 0 [7]
        (NMap.upd NMap.empty 7 ksO) (NMap.upd NMap.empty 7 vehAttr)
        (NMap.upd NMap.empty 7 [wpTen]) [0, 0, 0] [0, 0, 0] [0, 0, 0]
        [0, 0, 0] [chdClear] [true] NMap.empty NMap.empty 7 ksO chdClear true
        res rfl rfl rfl rfl rfl (Or.inl rfl) hres
      simp [h.1, h.2]

end CarlaTM
namespace CarlaTM

/-- Left rib point emitted for a waypoint. -/
def ribLeft (o : GeomOracle) (width : ℚ) (w : Waypoint) : V3 :=
  w.loc.add (V3.scale width (makeUnitVector o ⟨-w.fwdV.y, w.fwdV.x, 0⟩))

/-- Right rib point emitted for a waypoint. -/
def ribRight (o : GeomOracle) (width : ℚ) (w : Waypoint) : V3 :=
  w.loc.add (V3.scale (-1) (V3.scale width (makeUnitVector o ⟨-w.fwdV.y, w.fwdV.x, 0⟩)))

/-- The target-waypoint walk returns an entry of the buffer together with
its index. -/
theorem gtwWalk_spec (o : GeomOracle) :
    ∀ (rest : List Waypoint) (current : Waypoint) (remaining : ℚ) (i : Nat),
      ∃ m, m ≤ rest.length ∧
        (gtwWalk o current rest remaining i).2 = i + m ∧
        (current :: rest).get? m = some (gtwWalk o current rest remaining i).1 := by
  intro rest
  induction rest with
  | nil =>
      intro current remaining i
      exact ⟨0, Nat.le_refl 0, rfl, rfl⟩
  | cons next rest ih =>
      intro current remaining i
      by_cases hr : remaining ≤ 0
      · refine ⟨0, Nat.zero_le _, ?_, ?_⟩ <;> simp [gtwWalk, hr]
      · obtain ⟨m, hm, hi, hg⟩ :=
          ih next (remaining - o.sqrtq (V3.distSq current.loc next.loc)) (i + 1)
        refine ⟨m + 1, Nat.succ_le_succ hm, ?_, ?_⟩
        · simp only [gtwWalk, if_neg hr]
          rw [hi]
          omega
        · simp only [gtwWalk, if_neg hr]
          simpa using hg

/-- `GetTargetWaypoint` returns an in-range index pointing at the returned
waypoint. -/
theorem GetTargetWaypoint_spec (o : GeomOracle) (buffer : List Waypoint)
    (d : ℚ) (w : Waypoint) (i : Nat)
    (h : GetTargetWaypoint o buffer d = some (w, i)) :
    i < buffer.length ∧ buffer.get? i = some w := by
  cases buffer with
  | nil => cases h
  | cons w0 ws =>
      unfold GetTargetWaypoint at h
      simp only [Option.some.injEq] at h
      obtain ⟨m, hm, hi, hg⟩ := gtwWalk_spec o ws w0 d 0
      rw [h] at hi hg
      simp only at hi hg
      subst hi
      constructor
      · simpa using Nat.lt_succ_of_le hm
      · simpa using hg

/-- With fresh ribs (no boundary end yet) and an in-range index, the walk
emits a rib for the current waypoint at its head. -/
theorem geoWalk_emits_first (o : GeomOracle) (buffer : List Waypoint)
    (boundary_start : Waypoint) (ext2 width : ℚ) (fuel j : Nat)
    (current : Waypoint) (hj : j < buffer.length) :
    ∃ lb2 rb2, geoWalk o buffer boundary_start ext2 width (fuel + 1) j
      current none =
      (ribLeft o width current :: lb2, ribRight o width current :: rb2) := by
  rw [geoWalk]
  rw [dif_pos hj]
  dsimp only
  split
  · exact ⟨[], [], rfl⟩
  · exact ⟨_, _, rfl⟩

/-- `GetPolygon` succeeds on any non-empty boundary. -/
theorem GetPolygon_isSome (l : List V3) (h : l ≠ []) :
    (GetPolygon l).isSome = true := by
  cases l with
  | nil => cases h rfl
  | cons a t => rfl

end CarlaTM
namespace CarlaTM

/-- C9: for a vehicle with a non-empty waypoint buffer (and no cached
boundary yet), the boundary walk emits at least one rib — one left and one
right point for the waypoint at `boundary_start_index` — so the boundary
handed to `GetPolygon` is a non-empty ring and `GetPolygon`'s access to its
first element succeeds. -/
theorem C9_boundary_walk_emits (o : GeomOracle) (actor_id : Nat)
    (geodesic_boundary_map : NMap (List V3)) (kinematic_state : KinematicState)
    (attributes : StaticAttributes) (waypoint_buffer : List Waypoint)
    (specific_lead_distance : ℚ) (collision_lock_map : NMap CollisionLock)
    (boundary_start : Waypoint) (boundary_start_index : Nat)
    (hveh : attributes.actor_type = ActorType.Vehicle)
    (hfresh : geodesic_boundary_map actor_id = none)
    (htw : GetTargetWaypoint o waypoint_buffer attributes.half_length =
      some (boundary_start, boundary_start_index)) :
    ∃ (gb : List V3) (gbm' : NMap (List V3)) (lb2 rb2 : List V3),
      waypoint_buffer.get? boundary_start_index = some boundary_start ∧
      geoWalk o waypoint_buffer boundary_start
        (max specific_lead_distance
          (GetBoundingBoxExtention actor_id kinematic_state collision_lock_map) *
         max specific_lead_distance
          (GetBoundingBoxExtention actor_id kinematic_state collision_lock_map))
        attributes.half_width waypoint_buffer.length boundary_start_index
        boundary_start none =
        (ribLeft o attributes.half_width boundary_start :: lb2,
         ribRight o attributes.half_width boundary_start :: rb2) ∧
      GetGeodesicBoundary o actor_id geodesic_boundary_map kinematic_state
        attributes waypoint_buffer specific_lead_distance collision_lock_map =
        some (gb, gbm') ∧
      gb = (ribRight o attributes.half_width boundary_start :: rb2).reverse ++
        GetBoundary o kinematic_state attributes ++
        (ribLeft o attributes.half_width boundary_start :: lb2) ∧
      gb ≠ [] ∧ (GetPolygon gb).isSome = true := by
  obtain ⟨hidx, hget⟩ := GetTargetWaypoint_spec o waypoint_buffer
    attributes.half_length boundary_start boundary_start_index htw
  have hlen : waypoint_buffer.length - 1 + 1 = waypoint_buffer.length :=
    Nat.succ_pred_eq_of_pos (Nat.lt_of_le_of_lt (Nat.zero_le _) hidx)
  obtain ⟨lb2, rb2, hwalk⟩ := geoWalk_emits_first o waypoint_buffer
    boundary_start
    (max specific_lead_distance
      (GetBoundingBoxExtention actor_id kinematic_state collision_lock_map) *
     max specific_lead_distance
      (GetBoundingBoxExtention actor_id kinematic_state collision_lock_map))
    attributes.half_width (waypoint_buffer.length - 1) boundary_start_index
    boundary_start hidx
  rw [hlen] at hwalk
  refine ⟨(ribRight o attributes.half_width boundary_start :: rb2).reverse ++
      GetBoundary o kinematic_state attributes ++
      (ribLeft o attributes.half_width boundary_start :: lb2),
    geodesic_boundary_map.upd actor_id
      ((ribRight o attributes.half_width boundary_start :: rb2).reverse ++
        GetBoundary o kinematic_state attributes ++
        (ribLeft o attributes.half_width boundary_start :: lb2)),
    lb2, rb2, hget, hwalk, ?_, rfl, ?_, ?_⟩
  · unfold GetGeodesicBoundary
    rw [hfresh, hveh, htw]
    dsimp only
    rw [if_pos rfl, hwalk]
  · simp
  · apply GetPolygon_isSome
    simp

end CarlaTM
namespace CarlaTM

unseal Rat.add Rat.sub Rat.mul Rat.inv in
/-- Witness for C9 with a one-waypoint buffer. -/
theorem C9_boundary_walk_emits_witness :
    GetTargetWaypoint oracleTouch [wpO] vehAttr.half_length = some (wpO, 0) ∧
    (GetGeodesicBoundary oracleTouch 1 emptyGB ksO vehAttr [wpO] 2
      noLocks).map (fun r => (decide (r.1 ≠ []), (GetPolygon r.1).isSome)) =
      some (true, true) := by
  have htw : GetTargetWaypoint oracleTouch [wpO] vehAttr.half_length =
      some (wpO, 0) := by decide
  obtain ⟨gb, gbm', lb2, rb2, -, -, hgb, -, hne, hpoly⟩ :=
    C9_boundary_walk_emits oracleTouch 1 emptyGB ksO vehAttr [wpO] 2 noLocks
      wpO 0 rfl rfl htw
  refine ⟨htw, ?_⟩
  rw [hgb]
  simp [hne, hpoly]

end CarlaTM
namespace CarlaTM

/-- The insert-if-absent on the teleport clock map never changes an
existing entry. -/
theorem teleInsert_preserves (tele : NMap ℚ) (actor : Nat) (now : ℚ)
    (id : Nat) (t : ℚ) (h : tele id = some t) :
    (if (tele actor).isSome then tele else tele.upd actor now) id = some t := by
  split
  · exact h
  · next hns =>
      unfold NMap.upd
      split
      · next heq =>
          subst heq
          rw [h] at hns
          simp at hns
      · exact h

/-- The insert-if-absent on the teleport clock map records the current
instant for an absent entry. -/
theorem teleInsert_inserts (tele : NMap ℚ) (actor : Nat) (now : ℚ)
    (h : tele actor = none) :
    (if (tele actor).isSome then tele else tele.upd actor now) actor =
      some now := by
  rw [h]
  simp [NMap.upd]

/-- No `MotionPlan` call changes an existing teleport-instant entry (of any
actor). -/
theorem motionPlan_tele_preserved (o : GeomOracle) (p : SimParameters)
    (current_time : ℚ) (index : Nat) (vehicle_id_list : List Nat)
    (state_map : NMap KinematicState) (attribute_map : NMap StaticAttributes)
    (buffer_map : NMap (List Waypoint))
    (urban_longitudinal highway_longitudinal urban_lateral highway_lateral : List ℚ)
    (collision_frame : List CollisionHazardData) (tl_frame : List Bool)
    (pid_state_map : NMap StateEntry) (teleportation_instance : NMap ℚ)
    (res : MPOut) (id : Nat) (t : ℚ)
    (hold : teleportation_instance id = some t)
    (hres : MotionPlan o p current_time index vehicle_id_list state_map
      attribute_map buffer_map urban_longitudinal highway_longitudinal
      urban_lateral highway_lateral collision_frame tl_frame pid_state_map
      teleportation_instance = some res) :
    res.teleportation_instance id = some t := by
  unfold MotionPlan at hres
  cases hid : vehicle_id_list.get? index with
  | none => rw [hid] at hres; cases hres
  | some actor_id =>
  rw [hid] at hres
  dsimp only [bind, Option.bind] at hres
  cases hks : state_map actor_id with
  | none => rw [hks] at hres; cases hres
  | some ks =>
  rw [hks] at hres
  dsimp only [bind, Option.bind] at hres
  cases hb : buffer_map actor_id with
  | none => rw [hb] at hres; cases hres
  | some waypoint_buffer =>
  rw [hb] at hres
  dsimp only [bind, Option.bind] at hres
  cases hch : collision_frame.get? index with
  | none => rw [hch] at hres; cases hres
  | some chd =>
  rw [hch] at hres
  dsimp only [bind, Option.bind] at hres
  cases htlf : tl_frame.get? index with
  | none => rw [htlf] at hres; cases hres
  | some tlh =>
  rw [htlf] at hres
  dsimp only [bind, Option.bind] at hres
  cases htw : GetTargetWaypoint o waypoint_buffer
      (max (vecLen o ks.velocity * TARGET_WAYPOINT_TIME_HORIZON)
        TARGET_WAYPOINT_HORIZON_LENGTH) with
  | none => rw [htw] at hres; cases hres
  | some tw =>
  rw [htw] at hres
  dsimp only [bind, Option.bind] at hres
  cases hattr : attribute_map actor_id with
  | none => rw [hattr] at hres; cases hres
  | some ego_attributes =>
  rw [hattr] at hres
  dsimp only [bind, Option.bind] at hres
  cases hchh : collisionHandling o chd state_map ks.velocity ks.rotation.fwd
      (p.target_velocity actor_id ego_attributes.speed_limit * (5/18)) with
  | none => rw [hchh] at hres; cases hres
  | some ch =>
  rw [hchh] at hres
  dsimp only [bind, Option.bind] at hres
  cases hph : ks.physics_enabled with
  | true =>
      rw [hph] at hres
      simp only [if_true] at hres
      simp only [Option.some.injEq] at hres
      subst hres
      exact hold
  | false =>
      rw [hph] at hres
      simp only [Bool.false_eq_true, if_false] at hres
      split at hres
      · cases htt : teleportAdvanceTransform o waypoint_buffer ks.location
            (min (p.target_velocity actor_id ego_attributes.speed_limit *
              (5/18)) ch.2) with
        | none => rw [htt] at hres; cases hres
        | some tt =>
            rw [htt] at hres
            dsimp only [bind, Option.bind] at hres
            simp only [Option.some.injEq] at hres
            subst hres
            exact teleInsert_preserves teleportation_instance actor_id
              current_time id t hold
      · simp only [Option.some.injEq] at hres
        subst hres
        exact teleInsert_preserves teleportation_instance actor_id
          current_time id t hold

end CarlaTM
namespace CarlaTM

/-- A no-hazard collision frame entry leaves the target velocity and the
emergency flag untouched. -/
theorem collisionHandling_nohazard (o : GeomOracle)
    (collision_hazard : CollisionHazardData) (state_map : NMap KinematicState)
    (ego_velocity ego_heading : V3) (max_target_velocity : ℚ)
    (hhaz : collision_hazard.hazard = false) :
    collisionHandling o collision_hazard state_map ego_velocity ego_heading
      max_target_velocity = some (false, max_target_velocity) := by
  unfold collisionHandling
  rw [hhaz]
  rfl

/-- The first physics-less `MotionPlan` call for an ego records the current
instant in the teleport clock map. -/
theorem motionPlan_tele_first (o : GeomOracle) (p : SimParameters)
    (current_time : ℚ) (index : Nat) (vehicle_id_list : List Nat)
    (state_map : NMap KinematicState) (attribute_map : NMap StaticAttributes)
    (buffer_map : NMap (List Waypoint))
    (urban_longitudinal highway_longitudinal urban_lateral highway_lateral : List ℚ)
    (collision_frame : List CollisionHazardData) (tl_frame : List Bool)
    (pid_state_map : NMap StateEntry) (teleportation_instance : NMap ℚ)
    (res : MPOut) (actor_id : Nat) (ks : KinematicState)
    (hid : vehicle_id_list.get? index = some actor_id)
    (hks : state_map actor_id = some ks)
    (hph : ks.physics_enabled = false)
    (hnone : teleportation_instance actor_id = none)
    (hres : MotionPlan o p current_time index vehicle_id_list state_map
      attribute_map buffer_map urban_longitudinal highway_longitudinal
      urban_lateral highway_lateral collision_frame tl_frame pid_state_map
      teleportation_instance = some res) :
    res.teleportation_instance actor_id = some current_time := by
  unfold MotionPlan at hres
  rw [hid] at hres
  dsimp only [bind, Option.bind] at hres
  rw [hks] at hres
  dsimp only [bind, Option.bind] at hres
  cases hb : buffer_map actor_id with
  | none => rw [hb] at hres; cases hres
  | some waypoint_buffer =>
  rw [hb] at hres
  dsimp only [bind, Option.bind] at hres
  cases hch : collision_frame.get? index with
  | none => rw [hch] at hres; cases hres
  | some chd =>
  rw [hch] at hres
  dsimp only [bind, Option.bind] at hres
  cases htlf : tl_frame.get? index with
  | none => rw [htlf] at hres; cases hres
  | some tlh =>
  rw [htlf] at hres
  dsimp only [bind, Option.bind] at hres
  cases htw : GetTargetWaypoint o waypoint_buffer
      (max (vecLen o ks.velocity * TARGET_WAYPOINT_TIME_HORIZON)
        TARGET_WAYPOINT_HORIZON_LENGTH) with
  | none => rw [htw] at hres; cases hres
  | some tw =>
  rw [htw] at hres
  dsimp only [bind, Option.bind] at hres
  cases hattr : attribute_map actor_id with
  | none => rw [hattr] at hres; cases hres
  | some ego_attributes =>
  rw [hattr] at hres
  dsimp only [bind, Option.bind] at hres
  cases hchh : collisionHandling o chd state_map ks.velocity ks.rotation.fwd
      (p.target_velocity actor_id ego_attributes.speed_limit * (5/18)) with
  | none => rw [hchh] at hres; cases hres
  | some ch =>
  rw [hchh] at hres
  dsimp only [bind, Option.bind] at hres
  rw [hph] at hres
  simp only [Bool.false_eq_true, if_false] at hres
  split at hres
  · cases htt : teleportAdvanceTransform o waypoint_buffer ks.location
        (min (p.target_velocity actor_id ego_attributes.speed_limit * (5/18))
          ch.2) with
    | none => rw [htt] at hres; cases hres
    | some tt =>
        rw [htt] at hres
        dsimp only [bind, Option.bind] at hres
        simp only [Option.some.injEq] at hres
        subst hres
        exact teleInsert_inserts teleportation_instance actor_id current_time
          hnone
  · simp only [Option.some.injEq] at hres
    subst hres
    exact teleInsert_inserts teleportation_instance actor_id current_time hnone

end CarlaTM
namespace CarlaTM

/-- In asynchronous mode, a physics-less call made more than
`HYBRID_MODE_DT` after the recorded instant — with no emergency stop —
takes the teleport-advance branch and leaves the recorded instant intact. -/
theorem motionPlan_teleport_branch (o : GeomOracle) (p : SimParameters)
    (current_time : ℚ) (index : Nat) (vehicle_id_list : List Nat)
    (state_map : NMap KinematicState) (attribute_map : NMap StaticAttributes)
    (buffer_map : NMap (List Waypoint))
    (urban_longitudinal highway_longitudinal urban_lateral highway_lateral : List ℚ)
    (collision_frame : List CollisionHazardData) (tl_frame : List Bool)
    (pid_state_map : NMap StateEntry) (teleportation_instance : NMap ℚ)
    (res : MPOut) (actor_id : Nat) (ks : KinematicState)
    (chd : CollisionHazardData) (ego_attributes : StaticAttributes)
    (waypoint_buffer : List Waypoint) (t0 : ℚ) (tt : Transform)
    (hid : vehicle_id_list.get? index = some actor_id)
    (hks : state_map actor_id = some ks)
    (hph : ks.physics_enabled = false)
    (hch : collision_frame.get? index = some chd)
    (hhaz : chd.hazard = false)
    (htlf : tl_frame.get? index = some false)
    (hattr : attribute_map actor_id = some ego_attributes)
    (hbuf : buffer_map actor_id = some waypoint_buffer)
    (hsync : p.synchronous_mode = false)
    (ht0 : teleportation_instance actor_id = some t0)
    (helapsed : current_time - t0 > HYBRID_MODE_DT)
    (htt : teleportAdvanceTransform o waypoint_buffer ks.location
      (min (p.target_velocity actor_id ego_attributes.speed_limit * (5/18))
        (p.target_velocity actor_id ego_attributes.speed_limit * (5/18))) =
      some tt)
    (hres : MotionPlan o p current_time index vehicle_id_list state_map
      attribute_map buffer_map urban_longitudinal highway_longitudinal
      urban_lateral highway_lateral collision_frame tl_frame pid_state_map
      teleportation_instance = some res) :
    res.command = Command.applyTransform actor_id tt ∧
    res.teleportation_instance actor_id = some t0 := by
  unfold MotionPlan at hres
  rw [hid] at hres
  dsimp only [bind, Option.bind] at hres
  rw [hks] at hres
  dsimp only [bind, Option.bind] at hres
  rw [hbuf] at hres
  dsimp only [bind, Option.bind] at hres
  rw [hch] at hres
  dsimp only [bind, Option.bind] at hres
  rw [htlf] at hres
  dsimp only [bind, Option.bind] at hres
  cases htw : GetTargetWaypoint o waypoint_buffer
      (max (vecLen o ks.velocity * TARGET_WAYPOINT_TIME_HORIZON)
        TARGET_WAYPOINT_HORIZON_LENGTH) with
  | none => rw [htw] at hres; cases hres
  | some tw =>
  rw [htw] at hres
  dsimp only [bind, Option.bind] at hres
  rw [hattr] at hres
  dsimp only [bind, Option.bind] at hres
  rw [collisionHandling_nohazard o chd state_map ks.velocity ks.rotation.fwd
    (p.target_velocity actor_id ego_attributes.speed_limit * (5/18)) hhaz]
    at hres
  dsimp only [bind, Option.bind] at hres
  rw [hph] at hres
  simp only [Bool.false_eq_true, if_false] at hres
  rw [hsync, ht0] at hres
  have hd : decide (current_time - t0 > HYBRID_MODE_DT) = true :=
    decide_eq_true helapsed
  simp only [Option.getD_some, Bool.or_false, Bool.false_or, Bool.not_false,
    Bool.true_and, hd, if_true] at hres
  rw [htt] at hres
  dsimp only [bind, Option.bind] at hres
  simp only [Option.some.injEq] at hres
  subst hres
  refine ⟨rfl, ?_⟩
  simp only [Option.isSome_some, if_true]
  exact ht0

end CarlaTM
namespace CarlaTM

/-- C10: (1) once present, a teleport-instant entry is never modified by
any later `MotionPlan` call, so the elapsed time is measured from the
*first* physics-less call, not from the last teleport; (2) the first
physics-less call for an ego records the current instant; (3) in
asynchronous mode, any physics-less call more than `HYBRID_MODE_DT` after
the recorded instant — absent an emergency stop — takes the
teleport-advance branch and keeps the recorded instant. -/
theorem C10_teleport_clock :
    (∀ (o : GeomOracle) (p : SimParameters) (current_time : ℚ) (index : Nat)
      (vehicle_id_list : List Nat) (state_map : NMap KinematicState)
      (attribute_map : NMap StaticAttributes) (buffer_map : NMap (List Waypoint))
      (ul hl ula hla : List ℚ) (collision_frame : List CollisionHazardData)
      (tl_frame : List Bool) (pid_state_map : NMap StateEntry)
      (teleportation_instance : NMap ℚ) (res : MPOut) (id : Nat) (t : ℚ),
      teleportation_instance id = some t →
      MotionPlan o p current_time index vehicle_id_list state_map
        attribute_map buffer_map ul hl ula hla collision_frame tl_frame
        pid_state_map teleportation_instance = some res →
      res.teleportation_instance id = some t) ∧
    (∀ (o : GeomOracle) (p : SimParameters) (current_time : ℚ) (index : Nat)
      (vehicle_id_list : List Nat) (state_map : NMap KinematicState)
      (attribute_map : NMap StaticAttributes) (buffer_map : NMap (List Waypoint))
      (ul hl ula hla : List ℚ) (collision_frame : List CollisionHazardData)
      (tl_frame : List Bool) (pid_state_map : NMap StateEntry)
      (teleportation_instance : NMap ℚ) (res : MPOut) (actor_id : Nat)
      (ks : KinematicState),
      vehicle_id_list.get? index = some actor_id →
      state_map actor_id = some ks →
      ks.physics_enabled = false →
      teleportation_instance actor_id = none →
      MotionPlan o p current_time index vehicle_id_list state_map
        attribute_map buffer_map ul hl ula hla collision_frame tl_frame
        pid_state_map teleportation_instance = some res →
      res.teleportation_instance actor_id = some current_time) ∧
    (∀ (o : GeomOracle) (p : SimParameters) (current_time : ℚ) (index : Nat)
      (vehicle_id_list : List Nat) (state_map : NMap KinematicState)
      (attribute_map : NMap StaticAttributes) (buffer_map : NMap (List Waypoint))
      (ul hl ula hla : List ℚ) (collision_frame : List CollisionHazardData)
      (tl_frame : List Bool) (pid_state_map : NMap StateEntry)
      (teleportation_instance : NMap ℚ) (res : MPOut) (actor_id : Nat)
      (ks : KinematicState) (chd : CollisionHazardData)
      (ego_attributes : StaticAttributes) (waypoint_buffer : List Waypoint)
      (t0 : ℚ) (tt : Transform),
      vehicle_id_list.get? index = some actor_id →
      state_map actor_id = some ks →
      ks.physics_enabled = false →
      collision_frame.get? index = some chd →
      chd.hazard = false →
      tl_frame.get? index = some false →
      attribute_map actor_id = some ego_attributes →
      buffer_map actor_id = some waypoint_buffer →
      p.synchronous_mode = false →
      teleportation_instance actor_id = some t0 →
      current_time - t0 > HYBRID_MODE_DT →
      teleportAdvanceTransform o waypoint_buffer ks.location
        (min (p.target_velocity actor_id ego_attributes.speed_limit * (5/18))
          (p.target_velocity actor_id ego_attributes.speed_limit * (5/18))) =
        some tt →
      MotionPlan o p current_time index vehicle_id_list state_map
        attribute_map buffer_map ul hl ula hla collision_frame tl_frame
        pid_state_map teleportation_instance = some res →
      res.command = Command.applyTransform actor_id tt ∧
      res.teleportation_instance actor_id = some t0) :=
  ⟨fun o p ct i ids sm am bm ul hl ula hla cf tf psm ti res id t hold hres =>
      motionPlan_tele_preserved o p ct i ids sm am bm ul hl ula hla cf tf psm
        ti res id t hold hres,
   fun o p ct i ids sm am bm ul hl ula hla cf tf psm ti res aid ks hid hks
       hph hnone hres =>
      motionPlan_tele_first o p ct i ids sm am bm ul hl ula hla cf tf psm ti
        res aid ks hid hks hph hnone hres,
   fun o p ct i ids sm am bm ul hl ula hla cf tf psm ti res aid ks chd ea wb
       t0 tt hid hks hph hch hhaz htlf hattr hbuf hsync ht0 helapsed htt
       hres =>
      motionPlan_teleport_branch o p ct i ids sm am bm ul hl ula hla cf tf
        psm ti res aid ks chd ea wb t0 tt hid hks hph hch hhaz htlf hattr
        hbuf hsync ht0 helapsed htt hres⟩

end CarlaTM
namespace CarlaTM

unseal Rat.add Rat.sub Rat.mul Rat.inv in
/-- Witness for C10: an asynchronous physics-less ego with a teleport
instant recorded at time 0, planned at time 1, is teleported to the target
waypoint pose with its entry intact; a fresh ego gets the current instant
recorded. -/
theorem C10_teleport_clock_witness :
    (MotionPlan oracleTouch pTest 1 0 [7] (NMap.upd NMap.empty 7 ksONoPhys)
      (NMap.upd NMap.empty 7 vehAttr) (NMap.upd NMap.empty 7 [wpTen])
      [0, 0, 0] [0, 0, 0] [0, 0, 0] [0, 0, 0] [chdClear] [false] NMap.empty
      (NMap.upd NMap.empty 7 0)).map
        (fun r => (r.command, r.teleportation_instance 7)) =
      some (Command.applyTransform 7 ⟨⟨10, 0, 0⟩, rotPX⟩, some 0) ∧
    (MotionPlan oracleTouch pTest 1 0 [7] (NMap.upd NMap.empty 7 ksONoPhys)
      (NMap.upd NMap.empty 7 vehAttr) (NMap.upd NMap.empty 7 [wpTen])
      [0, 0, 0] [0, 0, 0] [0, 0, 0] [0, 0, 0] [chdClear] [false] NMap.empty
      NMap.empty).map (fun r => r.teleportation_instance 7) =
      some (some 1) := by
  constructor
  · cases hres : MotionPlan oracleTouch pTest 1 0 [7]
        (NMap.upd NMap.empty 7 ksONoPhys) (NMap.upd NMap.empty 7 vehAttr)
        (NMap.upd NMap.empty 7 [wpTen]) [0, 0, 0] [0, 0, 0] [0, 0, 0]
        [0, 0, 0] [chdClear] [false] NMap.empty
        (NMap.upd NMap.empty 7 0) with
    | none =>
        have hs : (MotionPlan oracleTouch pTest 1 0 [7]
          (NMap.upd NMap.empty 7 ksONoPhys) (NMap.upd NMap.empty 7 vehAttr)
          (NMap.upd NMap.empty 7 [wpTen]) [0, 0, 0] [0, 0, 0] [0, 0, 0]
          [0, 0, 0] [chdClear] [false] NMap.empty
          (NMap.upd NMap.empty 7 0)).isSome = true := by decide
        rw [hres] at hs
        cases hs
    | some res =>
        have htt : teleportAdvanceTransform oracleTouch [wpTen]
            ksONoPhys.location
            (min (pTest.target_velocity 7 vehAttr.speed_limit * (5/18))
              (pTest.target_velocity 7 vehAttr.speed_limit * (5/18))) =
            some ⟨⟨10, 0, 0⟩, rotPX⟩ := by decide
        obtain ⟨hcmd, htele⟩ := C10_teleport_clock.2.2 oracleTouch pTest 1 0
          [7] (NMap.upd NMap.empty 7 ksONoPhys) (NMap.upd NMap.empty 7 vehAttr)
          (NMap.upd NMap.empty 7 [wpTen]) [0, 0, 0] [0, 0, 0] [0, 0, 0]
          [0, 0, 0] [chdClear] [false] NMap.empty (NMap.upd NMap.empty 7 0)
          res 7 ksONoPhys chdClear vehAttr [wpTen] 0 ⟨⟨10, 0, 0⟩, rotPX⟩
          rfl rfl rfl rfl rfl rfl rfl rfl rfl rfl (by decide) htt hres
        simp [hcmd, htele]
  · cases hres : MotionPlan oracleTouch pTest 1 0 [7]
        (NMap.upd NMap.empty 7 ksONoPhys) (NMap.upd NMap.empty 7 vehAttr)
        (NMap.upd NMap.empty 7 [wpTen]) [0, 0, 0] [0, 0, 0] [0, 0, 0]
        [0, 0, 0] [chdClear] [false] NMap.empty NMap.empty with
    | none =>
        have hs : (MotionPlan oracleTouch pTest 1 0 [7]
          (NMap.upd NMap.empty 7 ksONoPhys) (NMap.upd NMap.empty 7 vehAttr)
          (NMap.upd NMap.empty 7 [wpTen]) [0, 0, 0] [0, 0, 0] [0, 0, 0]
          [0, 0, 0] [chdClear] [false] NMap.empty
          NMap.empty).isSome = true := by decide
        rw [hres] at hs
        cases hs
    | some res =>
        have h := C10_teleport_clock.2.1 oracleTouch pTest 1 0 [7]
          (NMap.upd NMap.empty 7 ksONoPhys) (NMap.upd NMap.empty 7 vehAttr)
          (NMap.upd NMap.empty 7 [wpTen]) [0, 0, 0] [0, 0, 0] [0, 0, 0]
          [0, 0, 0] [chdClear] [false] NMap.empty NMap.empty res 7 ksONoPhys
          rfl rfl rfl rfl hres
        simp [h]

end CarlaTM
